import Mathlib

/- A shallow embedding of the deployment, decommissioning, capacity-accounting,
   fleet-scoring and cask-packing core of the transition-scenarios repository
   (src/scripts/deployment_scripts.py, src/scripts/deployment_script.py,
   src/scripts/waste_calcs.py), together with theorems settling the frozen
   specification claims.  Machine integers and floats of the source are
   embedded as rationals; the IEEE special values that pandas float columns
   can hold are embedded explicitly by the `PFloat` type further below. -/

/-- A dataframe column: an ordered sequence of cell values. -/

abbrev Col (α : Type) : Type := List α

namespace Col

/-- Pointwise sum of two rational columns (pandas elementwise addition, as in
    the statement `df['total_cap'] += df[f'{reactor}_cap']`). -/
def add (xs ys : Col ℚ) : Col ℚ := List.zipWith (· + ·) xs ys

/-- Single-cell update `df.loc[i, c] += v`, restricted to the one column `c`. -/
def updAdd (xs : Col ℚ) (i : ℕ) (v : ℚ) : Col ℚ := xs.set i (xs.getD i 0 + v)

end Col

/-- A pandas-like dataframe: a fixed number of rows (the length of the index,
    set when the frame is created) and an ordered association list of named
    columns.  Scalar assignments such as `df['total_cap'] = 0` broadcast to
    `nrows` cells. -/
structure DataFrame (α : Type) where
  nrows : ℕ
  cols : List (String × Col α)
deriving DecidableEq

namespace DataFrame

variable {α : Type}

/-- The membership test `c in df` on column names. -/
def hasCol (df : DataFrame α) (c : String) : Bool := df.cols.any (fun p => p.1 == c)

/-- Column read `df[c]`.  All embedded code only reads columns that exist;
    a missing column reads as the empty column. -/
def getCol (df : DataFrame α) (c : String) : Col α :=
  ((df.cols.find? (fun p => p.1 == c)).map Prod.snd).getD []

/-- Column write `df[c] = v`: replace the column if present, else append it. -/
def setCol (df : DataFrame α) (c : String) (v : Col α) : DataFrame α :=
  if df.hasCol c then
    { df with cols := df.cols.map (fun p => if p.1 == c then (c, v) else p) }
  else
    { df with cols := df.cols ++ [(c, v)] }

/-- The number of rows, `len(df)`. -/
def len (df : DataFrame α) : ℕ := df.nrows

end DataFrame

/- Embedding of src/scripts/waste_calcs.py (class Cask_Calcs).  Python float
   arithmetic is embedded as exact rational arithmetic.  The optional
   constructor parameters default to `False` in the source and Python
   arithmetic treats `False` as 0; they are embedded as `Option ℚ` read
   through `pyVal`. -/

/-- Arithmetic value of a possibly-defaulted constructor parameter: Python's
    default `False` behaves as 0 in arithmetic (`False * x == 0`). -/
def pyVal : Option ℚ → ℚ
  | none => 0
  | some q => q

/-- The state of a `Cask_Calcs` object after `__init__`.  `masses` is the
    insertion-ordered year-to-mass dictionary.  The unused constructor
    parameter `mass_kernel` is stored under the misspelled attribute name
    `mass_kerne`, exactly as in the source. -/
structure Cask_Calcs where
  elements : String
  masses : List (ℕ × ℚ)
  cask_vol : ℚ
  vol_prism : ℚ
  mass_prism : ℚ
  vol_triso : Option ℚ := none
  mass_triso : Option ℚ := none
  den_triso : Option ℚ := none
  den_kernel : Option ℚ := none
  vol_kernel : Option ℚ := none
  mass_kerne : Option ℚ := none
deriving DecidableEq

namespace Cask_Calcs

/-- Method `calculate_num_prisms`: one prism count per year, `mass / mass_prism`. -/
def calculate_num_prisms (c : Cask_Calcs) : Col ℚ :=
  c.masses.map (fun ym => ym.2 / c.mass_prism)

/-- Method `calculate_num_trisos`: prism counts times the TRISO density. -/
def calculate_num_trisos (c : Cask_Calcs) : Col ℚ :=
  c.calculate_num_prisms.map (fun p => p * pyVal c.den_triso)

/-- Method `calculate_num_kernels`: TRISO counts times the kernel density. -/
def calculate_num_kernels (c : Cask_Calcs) : Col ℚ :=
  c.calculate_num_trisos.map (fun t => t * pyVal c.den_kernel)

/-- Python's `divmod(x, 1)`: the floor and the fractional part of `x`. -/
def pydivmod1 (x : ℚ) : ℚ × ℚ := ((⌊x⌋ : ℚ), x - ⌊x⌋)

/-- One iteration of the cask-packing loop of `calculate_casks`: year 0 packs
    its own contribution, every later year adds the previous year's leftover
    to its contribution before the `divmod`. -/
def caskStep (elems : Col ℚ) (vol cask_vol : ℚ) (acc : Col ℚ × Col ℚ)
    (year : ℕ) : Col ℚ × Col ℚ :=
  let x := if year = 0 then elems.getD year 0 * vol / cask_vol
    else elems.getD year 0 * vol / cask_vol + acc.2.getD (year - 1) 0
  (acc.1.set year (pydivmod1 x).1, acc.2.set year (pydivmod1 x).2)

/-- The cask-packing loop of `calculate_casks`: `casks` and `leftovers` start
    as `np.zeros(len(elems))` and are filled year by year. -/
def casksLoop (elems : Col ℚ) (vol cask_vol : ℚ) : Col ℚ × Col ℚ :=
  (List.range elems.length).foldl (caskStep elems vol cask_vol)
    (List.replicate elems.length 0, List.replicate elems.length 0)

/-- The element/volume selection at the head of `calculate_casks`. -/
def selectElems (c : Cask_Calcs) : Option (Col ℚ × ℚ) :=
  if c.elements = "prism" then some (c.calculate_num_prisms, c.vol_prism)
  else if c.elements = "triso" then some (c.calculate_num_trisos, pyVal c.vol_triso)
  else if c.elements = "kernel" then some (c.calculate_num_kernels, pyVal c.vol_kernel)
  else none

/-- Method `calculate_casks`.  On an unknown `elements` selector the source
    prints "The element you tried is not an option" and then crashes on the
    unbound local variable `elems` (an `UnboundLocalError`) before any cask
    is computed; that no-result path is embedded as an error value. -/
def calculate_casks (c : Cask_Calcs) : Except String (Col ℚ × Col ℚ) :=
  match c.selectElems with
  | none => .error "The element you tried is not an option"
  | some ev => .ok (casksLoop ev.1 ev.2 c.cask_vol)

/-- Reference recurrence for the leftover carried out of year `y` by the
    cask-packing loop. -/
def leftSeq (elems : Col ℚ) (vol cask_vol : ℚ) : ℕ → ℚ
  | 0 => Int.fract (elems.getD 0 0 * vol / cask_vol)
  | y + 1 => Int.fract (elems.getD (y + 1) 0 * vol / cask_vol +
      leftSeq elems vol cask_vol y)

/-- Reference recurrence for the whole casks packed in year `y`. -/
def caskSeq (elems : Col ℚ) (vol cask_vol : ℚ) : ℕ → ℚ
  | 0 => (⌊elems.getD 0 0 * vol / cask_vol⌋ : ℚ)
  | y + 1 => (⌊elems.getD (y + 1) 0 * vol / cask_vol +
      leftSeq elems vol cask_vol y⌋ : ℚ)

end Cask_Calcs

/-- A concrete prism-packing configuration used to witness C8. -/
def caskPrismExample : Cask_Calcs :=
  { elements := "prism", masses := [(2020, 3), (2021, 5)],
    cask_vol := 2, vol_prism := 1, mass_prism := 1 }

/-- A Cask_Calcs object with an invalid elements selector, witnessing C9. -/
def caskBadExample : Cask_Calcs :=
  { elements := "pebble", masses := [(2020, 3)],
    cask_vol := 2, vol_prism := 1, mass_prism := 1 }

/-- A Cask_Calcs object requesting triso packing with defaulted densities,
    witnessing C10. -/
def caskTrisoExample : Cask_Calcs :=
  { elements := "triso", masses := [(2020, 3), (2021, 5)],
    cask_vol := 2, vol_prism := 1, mass_prism := 1 }

/- Embedding of the deployment core.  Reactor dictionaries
   `{reactor: [Power (MWe), capacity_factor (%), lifetime (yr), ...]}` are
   embedded as insertion-ordered association lists of records; index 0 is the
   power, index 1 the capacity factor and index 2 the lifetime.  The two
   near-duplicate source files deployment_scripts.py and deployment_script.py
   are embedded in namespaces of the same names. -/

/-- One reactor record `[Power (MWe), capacity_factor (%), lifetime (yr)]`. -/
structure ReactorSpec where
  power : ℚ
  capacity_factor : ℚ
  lifetime : ℕ
deriving DecidableEq

/-- An insertion-ordered reactor dictionary `ar_dict`. -/
abbrev ArDict : Type := List (String × ReactorSpec)

namespace deployment_scripts

/-- One year of a reactor's `direct_decom` pass on the ledger: when the
    decommission year `year + lifetime` lies inside the horizon, add that
    year's count to both the decommission column and the count column at the
    decommission year. -/
def decomFrameStep (p : String × ReactorSpec) (df : DataFrame ℚ) (year : ℕ) :
    DataFrame ℚ :=
  if (df.getCol "Year").length ≤ year + p.2.lifetime then df
  else
    let v := (df.getCol ("num_" ++ p.1)).getD year 0
    let df := df.setCol (p.1 ++ "Decom")
      (Col.updAdd (df.getCol (p.1 ++ "Decom")) (year + p.2.lifetime) v)
    df.setCol ("num_" ++ p.1)
      (Col.updAdd (df.getCol ("num_" ++ p.1)) (year + p.2.lifetime) v)

/-- The per-reactor pass of `direct_decom`: create the `{reactor}Decom` column
    as zeros, then run `decomFrameStep` over every year of the horizon. -/
def decomPass (df : DataFrame ℚ) (p : String × ReactorSpec) : DataFrame ℚ :=
  let df := df.setCol (p.1 ++ "Decom") (List.replicate df.len 0)
  (List.range (df.getCol "Year").length).foldl (decomFrameStep p) df

/-- `direct_decom` (textually identical in deployment_scripts.py and
    deployment_script.py): every decommissioned reactor is replaced by a new
    version of itself at its decommission year. -/
def direct_decom (df : DataFrame ℚ) (ar : ArDict) : DataFrame ℚ :=
  ar.foldl decomPass df

/-- `num_react_to_cap` (deployment_scripts.py): create `total_cap` as zeros
    when missing, then for each reactor write `{reactor}_cap` as the count
    column times the reactor's power (the capacity factor at index 1 is not
    read by the source) and add it onto `total_cap`. -/
def num_react_to_cap (df : DataFrame ℚ) (ar : ArDict) : DataFrame ℚ :=
  let df := if df.hasCol "total_cap" then df
    else df.setCol "total_cap" (List.replicate df.len 0)
  ar.foldl (fun df p =>
    let df := df.setCol (p.1 ++ "_cap")
      ((df.getCol ("num_" ++ p.1)).map (fun x => x * p.2.power))
    df.setCol "total_cap"
      (Col.add (df.getCol "total_cap") (df.getCol (p.1 ++ "_cap")))) df

/-- One year of the deployment_scripts.py greedy loop.  A reactor whose power
    exceeds the year's original demand deploys zero; otherwise it deploys
    `floor(remaining_cap / power)` units and `remaining_cap` is then reset to
    the original demand minus only this reactor's deployment. -/
def greedy_rstep (base_col : String) (year : ℕ) (acc : DataFrame ℚ × ℚ)
    (p : String × ReactorSpec) : DataFrame ℚ × ℚ :=
  let d0 := (acc.1.getCol base_col).getD year 0
  if p.2.power > d0 then
    (acc.1.setCol ("num_" ++ p.1)
      (Col.updAdd (acc.1.getCol ("num_" ++ p.1)) year 0), acc.2)
  else
    let rdiv : ℤ := ⌊acc.2 / p.2.power⌋
    (acc.1.setCol ("num_" ++ p.1)
      (Col.updAdd (acc.1.getCol ("num_" ++ p.1)) year (rdiv : ℚ)),
      d0 - (rdiv : ℚ) * p.2.power)

def greedy_year (df : DataFrame ℚ) (base_col : String) (ar : ArDict)
    (year : ℕ) : DataFrame ℚ :=
  (ar.foldl (greedy_rstep base_col year)
    (df, (df.getCol base_col).getD year 0)).1

/-- `greedy_deployment` (deployment_scripts.py): ensure count columns exist,
    run the greedy loop year by year, then decommission with direct
    replacement and derive capacity columns. -/
def greedy_deployment (df : DataFrame ℚ) (base_col : String) (ar : ArDict) :
    DataFrame ℚ :=
  let df := ar.foldl (fun df p =>
    if df.hasCol ("num_" ++ p.1) then df
    else df.setCol ("num_" ++ p.1) (List.replicate df.len 0)) df
  let df := (List.range (df.getCol base_col).length).foldl
    (fun df year => greedy_year df base_col ar year) df
  num_react_to_cap (direct_decom df ar) ar

end deployment_scripts

namespace deployment_script

/-- `direct_decom` of deployment_script.py, textually identical to the
    deployment_scripts.py function. -/
def direct_decom : DataFrame ℚ → ArDict → DataFrame ℚ :=
  deployment_scripts.direct_decom

/-- `num_react_to_cap` (deployment_script.py): as the deployment_scripts.py
    version, but `new_cap` is created together with `total_cap`, and each
    reactor also writes `new_{reactor}_cap = (num_{reactor} - {reactor}Decom)
    * power`, accumulated into `new_cap`. -/
def num_react_to_cap (df : DataFrame ℚ) (ar : ArDict) : DataFrame ℚ :=
  let df := if df.hasCol "total_cap" then df
    else (df.setCol "total_cap" (List.replicate df.len 0)).setCol "new_cap"
      (List.replicate df.len 0)
  ar.foldl (fun df p =>
    let df := df.setCol ("new_" ++ p.1 ++ "_cap")
      (List.zipWith (fun a b => (a - b) * p.2.power)
        (df.getCol ("num_" ++ p.1)) (df.getCol (p.1 ++ "Decom")))
    let df := df.setCol "new_cap"
      (Col.add (df.getCol "new_cap") (df.getCol ("new_" ++ p.1 ++ "_cap")))
    let df := df.setCol (p.1 ++ "_cap")
      ((df.getCol ("num_" ++ p.1)).map (fun x => x * p.2.power))
    df.setCol "total_cap"
      (Col.add (df.getCol "total_cap") (df.getCol (p.1 ++ "_cap")))) df

/-- One year of the deployment_script.py greedy loop: a reactor whose power
    exceeds the remaining capacity deploys zero, otherwise
    `floor(remaining_cap / power)` units, and `remaining_cap` is cumulatively
    reduced by the deployed capacity after every reactor. -/
def greedy_rstep (year : ℕ) (acc : DataFrame ℚ × ℚ)
    (p : String × ReactorSpec) : DataFrame ℚ × ℚ :=
  let rdiv : ℤ := if p.2.power > acc.2 then 0 else ⌊acc.2 / p.2.power⌋
  (acc.1.setCol ("num_" ++ p.1)
    (Col.updAdd (acc.1.getCol ("num_" ++ p.1)) year (rdiv : ℚ)),
    acc.2 - (rdiv : ℚ) * p.2.power)

def greedy_year (df : DataFrame ℚ) (base_col : String) (ar : ArDict)
    (year : ℕ) : DataFrame ℚ :=
  (ar.foldl (greedy_rstep year)
    (df, (df.getCol base_col).getD year 0)).1

/-- `greedy_deployment` (deployment_script.py): ensure count columns exist,
    run the cumulative greedy loop year by year, then decommission with
    direct replacement and derive the capacity columns including `new_cap`. -/
def greedy_deployment (df : DataFrame ℚ) (base_col : String) (ar : ArDict) :
    DataFrame ℚ :=
  let df := ar.foldl (fun df p =>
    if df.hasCol ("num_" ++ p.1) then df
    else df.setCol ("num_" ++ p.1) (List.replicate df.len 0)) df
  let df := (List.range (df.getCol base_col).length).foldl
    (fun df year => greedy_year df base_col ar year) df
  num_react_to_cap (direct_decom df ar) ar

end deployment_script

/- Concrete fleets and ledgers for the greedy-deployment claims.  The fleet is
   the one of the repository's test module:
   ReactorBig 80 MWe lifetime 6, ReactorMedium 20 MWe lifetime 4,
   ReactorSmall 5 MWe lifetime 2, capacity factors 1. -/

/-- The three-reactor test fleet. -/
def arC3 : ArDict :=
  [("ReactorBig", ⟨80, 1, 6⟩), ("ReactorMedium", ⟨20, 1, 4⟩), ("ReactorSmall", ⟨5, 1, 2⟩)]

/-- The nine-step test ledger with the demand curve of the repository's test
    module. -/
def dfC3 : DataFrame ℚ :=
  ⟨9, [("Year", [2016, 2017, 2018, 2019, 2020, 2021, 2022, 2023, 2024]),
    ("test_cap", [20, 79, 80, 81, 220, 640, 693, 950, 700])]⟩

/-- A one-step ledger with demand 693, the demand value of step 6 of the test
    curve. -/
def dfC2 : DataFrame ℚ := ⟨1, [("Year", [2016]), ("test_cap", [693])]⟩

/-- A one-reactor fleet whose capacity factor is 1/2, exposing that
    num_react_to_cap ignores the capacity factor. -/
def arC1 : ArDict := [("R", ⟨10, 1/2, 3⟩)]

/-- A one-step ledger with one reactor of type R in service. -/
def dfC1 : DataFrame ℚ := ⟨1, [("Year", [0]), ("num_R", [1])]⟩

namespace deployment_scripts

/-- Pure core of one year of a decommissioning pass: when the decommission
    year `year + L` lies inside the horizon `n`, add the count at `year` to
    both the decommission column and the count column at `year + L`. -/
def decomStep (L n : ℕ) (acc : Col ℚ × Col ℚ) (year : ℕ) : Col ℚ × Col ℚ :=
  if n ≤ year + L then acc
  else
    (Col.updAdd acc.1 (year + L) (acc.2.getD year 0),
      Col.updAdd acc.2 (year + L) (acc.2.getD year 0))

/-- Pure model of one reactor's whole direct_decom pass on the pair
    (decommission column, count column). -/
def decomCols (L n : ℕ) (cnt : Col ℚ) : Col ℚ × Col ℚ :=
  (List.range n).foldl (decomStep L n) (List.replicate n 0, cnt)

end deployment_scripts

/- Concrete fleet and ledger for the decommission-pairing witness: a single
   reactor type "A" of lifetime 2 over a 4-step horizon with counts
   [1, 0, 2, 0]. -/

def arC5 : ArDict := [("A", ⟨1, 1, 2⟩)]

def dfC5 : DataFrame ℚ := ⟨4, [("Year", [0, 1, 2, 3]), ("num_A", [1, 0, 2, 0])]⟩

/- pandas float semantics for the analysis functions of deployment_scripts.py:
   a pandas float64 cell is an exact rational, NaN, or a signed infinity.
   Division by an exact zero silently produces NaN (0/0) or a signed infinity,
   as numpy float division does; no exception is raised. -/

inductive PFloat : Type where
  | num (q : ℚ)
  | nan
  | inf
  | ninf
deriving DecidableEq

namespace PFloat

def sub : PFloat → PFloat → PFloat
  | .num a, .num b => .num (a - b)
  | .nan, _ => .nan
  | _, .nan => .nan
  | .inf, .inf => .nan
  | .inf, _ => .inf
  | .ninf, .ninf => .nan
  | .ninf, _ => .ninf
  | .num _, .inf => .ninf
  | .num _, .ninf => .inf

def add : PFloat → PFloat → PFloat
  | .num a, .num b => .num (a + b)
  | .nan, _ => .nan
  | _, .nan => .nan
  | .inf, .ninf => .nan
  | .ninf, .inf => .nan
  | .inf, _ => .inf
  | _, .inf => .inf
  | .ninf, _ => .ninf
  | _, .ninf => .ninf

def div : PFloat → PFloat → PFloat
  | .num a, .num b =>
    if b = 0 then (if a = 0 then .nan else if 0 < a then .inf else .ninf)
    else .num (a / b)
  | .nan, _ => .nan
  | _, .nan => .nan
  | .inf, .inf => .nan
  | .inf, .ninf => .nan
  | .ninf, .inf => .nan
  | .ninf, .ninf => .nan
  | .inf, .num b => if 0 ≤ b then .inf else .ninf
  | .ninf, .num b => if 0 ≤ b then .ninf else .inf
  | .num _, .inf => .num 0
  | .num _, .ninf => .num 0

/-- Multiplication by the positive constant 100 (`* 100` in the source). -/
def mul100 : PFloat → PFloat
  | .num a => .num (a * 100)
  | .nan => .nan
  | .inf => .inf
  | .ninf => .ninf

/-- IEEE `<`: any comparison against NaN is false. -/
def lt : PFloat → PFloat → Bool
  | .num a, .num b => decide (a < b)
  | .nan, _ => false
  | _, .nan => false
  | .inf, _ => false
  | .ninf, .ninf => false
  | .ninf, _ => true
  | .num _, .inf => true
  | .num _, .ninf => false

/-- IEEE `==`: NaN is equal to nothing, including itself. -/
def beqF : PFloat → PFloat → Bool
  | .num a, .num b => decide (a = b)
  | .inf, .inf => true
  | .ninf, .ninf => true
  | _, _ => false

/-- pandas `Series.sum()` with its default `skipna=True`: NaN entries are
    dropped, the rest are added with float addition starting from 0. -/
def psum (l : List PFloat) : PFloat :=
  (l.filter (fun x => !(decide (x = PFloat.nan)))).foldl add (.num 0)

end PFloat

namespace deployment_scripts

/-- `simple_diff` (deployment_scripts.py): `df[proj] - df[base]`, applied
    row-wise by `analyze_algorithm`, i.e. the elementwise float difference. -/
def simple_diff (df : DataFrame PFloat) (base proj : String) : Col PFloat :=
  List.zipWith PFloat.sub (df.getCol proj) (df.getCol base)

/-- `calc_percentage` (deployment_scripts.py):
    `(df['difference'] / df[base]) * 100` with float semantics, applied
    row-wise by `analyze_algorithm`. -/
def calc_percentage (df : DataFrame PFloat) (base : String) : Col PFloat :=
  List.zipWith (fun d b => (PFloat.div d b).mul100)
    (df.getCol "difference") (df.getCol base)

/-- The metrics dictionary returned by `analyze_algorithm`. -/
structure AnalyzeResults where
  above_count : ℕ
  below_count : ℕ
  equal_count : ℕ
  above_percentage : PFloat
  below_percentage : PFloat
  total_above : PFloat
  total_below : PFloat
  percent_provided : List (String × PFloat)

/-- `analyze_algorithm` (deployment_scripts.py): writes the `difference` and
    `percentage` columns into the ledger it was handed, then computes its
    metrics from the mutated ledger.  The returned pair is (mutated ledger,
    results dictionary); in the source the mutation happens in place on the
    caller's DataFrame. -/
def analyze_algorithm (df : DataFrame PFloat) (base proj : String)
    (ar : ArDict) : DataFrame PFloat × AnalyzeResults :=
  let df := df.setCol "difference" (simple_diff df base proj)
  let df := df.setCol "percentage" (calc_percentage df base)
  let diff := df.getCol "difference"
  let above_count := (diff.filter (fun x => PFloat.lt (PFloat.num 0) x)).length
  let below_count := (diff.filter (fun x => PFloat.lt x (PFloat.num 0))).length
  let equal_count := (diff.filter (fun x => PFloat.beqF x (PFloat.num 0))).length
  let total_cap_sum := PFloat.psum (df.getCol "total_cap")
  (df, ⟨above_count, below_count, equal_count,
    (PFloat.div (PFloat.num (above_count : ℚ)) (PFloat.num (df.len : ℚ))).mul100,
    (PFloat.div (PFloat.num (below_count : ℚ)) (PFloat.num (df.len : ℚ))).mul100,
    PFloat.psum (diff.filter (fun x => PFloat.lt (PFloat.num 0) x)),
    PFloat.psum (diff.filter (fun x => PFloat.lt x (PFloat.num 0))),
    ar.map (fun p => (p.1,
      ((PFloat.num 1).sub ((total_cap_sum.sub
        (PFloat.psum (df.getCol (p.1 ++ "_cap")))).div total_cap_sum)).mul100))⟩)

end deployment_scripts

namespace deployment_script

/-- The commissioning phase of `greedy_deployment` (deployment_script.py):
    ensure the count columns exist, then run the greedy loop year by year.
    `greedy_deployment` is definitionally this phase followed by
    `direct_decom` and `num_react_to_cap`. -/
def greedy_commission (df : DataFrame ℚ) (base_col : String) (ar : ArDict) :
    DataFrame ℚ :=
  let df := ar.foldl (fun g p =>
    if g.hasCol ("num_" ++ p.1) then g
    else g.setCol ("num_" ++ p.1) (List.replicate g.len 0)) df
  (List.range (df.getCol base_col).length).foldl
    (fun g year => greedy_year g base_col ar year) df

end deployment_script

/- Concrete frames for the zero-demand and read-only-scoring claims. -/

def dfC6w : DataFrame ℚ := ⟨1, [("test_cap", [0]), ("num_A", [3])]⟩

def gC6 : DataFrame PFloat :=
  ⟨1, [("difference", [PFloat.num 0]), ("test_cap", [PFloat.num 0])]⟩

def dfC7 : DataFrame PFloat :=
  ⟨1, [("demand", [PFloat.num 0]), ("proj", [PFloat.num 1]),
    ("total_cap", [PFloat.num 1])]⟩

namespace Col

theorem length_add (xs ys : Col ℚ) : (Col.add xs ys).length = min xs.length ys.length := by
  simp [Col.add]

theorem length_updAdd (xs : Col ℚ) (i : ℕ) (v : ℚ) :
    (Col.updAdd xs i v).length = xs.length := by
  simp [Col.updAdd]

theorem getD_add (xs ys : Col ℚ) (h : xs.length = ys.length) (t : ℕ) :
    (Col.add xs ys).getD t 0 = xs.getD t 0 + ys.getD t 0 := by
  induction xs generalizing ys t with
  | nil =>
    cases ys with
    | nil => simp [Col.add]
    | cons y ys => simp at h
  | cons x xs ih =>
    cases ys with
    | nil => simp at h
    | cons y ys =>
      cases t with
      | zero => simp [Col.add]
      | succ t =>
        simp only [Col.add, List.zipWith_cons_cons, List.getD_cons_succ]
        exact ih ys (by simpa using h) t

theorem getD_updAdd_self (xs : Col ℚ) (i : ℕ) (v : ℚ) (hi : i < xs.length) :
    (Col.updAdd xs i v).getD i 0 = xs.getD i 0 + v := by
  simp [Col.updAdd, List.getD, List.getElem?_set_self' , hi]

theorem getD_updAdd_ne (xs : Col ℚ) (i j : ℕ) (v : ℚ) (h : j ≠ i) :
    (Col.updAdd xs i v).getD j 0 = xs.getD j 0 := by
  simp [Col.updAdd, List.getD, List.getElem?_set_ne (Ne.symm h)]

end Col

namespace DataFrame

variable {α : Type}

theorem nrows_setCol (df : DataFrame α) (c : String) (v : Col α) :
    (df.setCol c v).nrows = df.nrows := by
  unfold setCol; split <;> rfl

private theorem find?_map_of_any (c : String) (v : Col α) (l : List (String × Col α))
    (h : l.any (fun p => p.1 == c) = true) :
    (l.map (fun p => if p.1 == c then (c, v) else p)).find? (fun p => p.1 == c) =
      some (c, v) := by
  induction l with
  | nil => simp at h
  | cons p t ih =>
    by_cases hpc : (p.1 == c) = true
    · rw [List.map_cons, if_pos hpc]
      exact List.find?_cons_of_pos _ (by simp)
    · have hb : (p.1 == c) = false := by simpa using hpc
      have ht : t.any (fun p => p.1 == c) = true := by
        simpa [List.any_cons, hb] using h
      rw [List.map_cons, if_neg hpc]
      exact (@List.find?_cons_of_neg _ (fun q => q.1 == c) p _ hpc).trans (ih ht)

private theorem find?_of_not_any (c : String) (l : List (String × Col α))
    (h : l.any (fun p => p.1 == c) = false) :
    l.find? (fun p => p.1 == c) = none := by
  rw [List.find?_eq_none]
  intro x hx
  simp only [List.any_eq_false] at h
  exact h x hx

private theorem comp_pred_eq (c c' : String) (v : Col α) (_h : c' ≠ c) :
    ((fun p : String × Col α => p.1 == c') ∘ (fun p => if p.1 == c then (c, v) else p)) =
      (fun p : String × Col α => p.1 == c') := by
  funext p
  by_cases hp : p.1 = c
  · simp [Function.comp, hp]
  · simp [Function.comp, hp]

theorem getCol_setCol_self (df : DataFrame α) (c : String) (v : Col α) :
    (df.setCol c v).getCol c = v := by
  unfold setCol
  by_cases h : df.hasCol c = true
  · rw [if_pos h]
    unfold getCol
    rw [find?_map_of_any c v df.cols h]
    rfl
  · have h' : df.cols.any (fun p => p.1 == c) = false := by
      cases hcb : df.hasCol c with
      | true => exact absurd hcb h
      | false => exact hcb
    rw [if_neg h]
    unfold getCol
    rw [List.find?_append, find?_of_not_any c df.cols h', Option.none_or,
      List.find?_cons_of_pos _ (by simp)]
    rfl

theorem getCol_setCol_ne (df : DataFrame α) (c c' : String) (v : Col α) (h : c' ≠ c) :
    (df.setCol c v).getCol c' = df.getCol c' := by
  have hcc : (c == c') = false := beq_false_of_ne (Ne.symm h)
  unfold setCol
  by_cases hc : df.hasCol c = true
  · rw [if_pos hc]
    unfold getCol
    rw [List.find?_map, comp_pred_eq c c' v h]
    cases hf : df.cols.find? (fun p => p.1 == c') with
    | none => rfl
    | some q =>
      have hq : q.1 = c' := by simpa using List.find?_some hf
      have hq2 : ¬q.1 = c := by rw [hq]; exact h
      simp [Option.map, if_neg hq2]
  · rw [if_neg hc]
    unfold getCol
    rw [List.find?_append, List.find?_cons_of_neg _ (by simp [hcc]),
      List.find?_nil, Option.or_none]

theorem hasCol_setCol_self (df : DataFrame α) (c : String) (v : Col α) :
    (df.setCol c v).hasCol c = true := by
  unfold setCol
  by_cases h : df.hasCol c = true
  · rw [if_pos h]
    unfold hasCol
    rw [List.any_eq_true]
    exact ⟨(c, v), List.mem_of_find?_eq_some (find?_map_of_any c v df.cols h), by simp⟩
  · rw [if_neg h]
    unfold hasCol
    simp [List.any_append]

theorem hasCol_setCol_ne (df : DataFrame α) (c c' : String) (v : Col α) (h : c' ≠ c) :
    (df.setCol c v).hasCol c' = df.hasCol c' := by
  have hcc : (c == c') = false := beq_false_of_ne (Ne.symm h)
  unfold setCol
  by_cases hc : df.hasCol c = true
  · rw [if_pos hc]
    unfold hasCol
    rw [List.any_map, comp_pred_eq c c' v h]
  · rw [if_neg hc]
    unfold hasCol
    rw [List.any_append]
    simp [hcc]

/-- A property of frames preserved by every step of a fold is preserved by
    the whole fold. -/
theorem foldl_preserves {β : Type} (f : DataFrame α → β → DataFrame α)
    (P : DataFrame α → Prop) (l : List β)
    (h : ∀ df b, b ∈ l → P df → P (f df b)) (df : DataFrame α) (hdf : P df) :
    P (l.foldl f df) := by
  induction l generalizing df with
  | nil => exact hdf
  | cons b t ih =>
    exact ih (fun df b' hb' => h df b' (List.mem_cons_of_mem _ hb')) _
      (h df b (List.mem_cons_self _ _) hdf)

end DataFrame

namespace Cask_Calcs

private theorem getD_set_self (xs : Col ℚ) (i : ℕ) (v : ℚ) (hi : i < xs.length) :
    (xs.set i v).getD i 0 = v := by
  simp [List.getD, List.getElem?_set_self, hi]

private theorem getD_set_ne (xs : Col ℚ) (i j : ℕ) (v : ℚ) (h : i ≠ j) :
    (xs.set i v).getD j 0 = xs.getD j 0 := by
  simp [List.getD, List.getElem?_set_ne h]

private theorem caskFold_spec (elems : Col ℚ) (vol cask_vol : ℚ) :
    ∀ k, k ≤ elems.length →
      (((List.range k).foldl (caskStep elems vol cask_vol)
          (List.replicate elems.length 0, List.replicate elems.length 0)).1.length =
        elems.length) ∧
      (((List.range k).foldl (caskStep elems vol cask_vol)
          (List.replicate elems.length 0, List.replicate elems.length 0)).2.length =
        elems.length) ∧
      (∀ y, y < k →
        ((List.range k).foldl (caskStep elems vol cask_vol)
          (List.replicate elems.length 0, List.replicate elems.length 0)).1.getD y 0 =
          caskSeq elems vol cask_vol y ∧
        ((List.range k).foldl (caskStep elems vol cask_vol)
          (List.replicate elems.length 0, List.replicate elems.length 0)).2.getD y 0 =
          leftSeq elems vol cask_vol y) := by
  intro k
  induction k with
  | zero =>
    intro _
    exact ⟨by simp, by simp, fun y hy => absurd hy (Nat.not_lt_zero y)⟩
  | succ k ih =>
    intro hk1
    have hklt : k < elems.length := hk1
    obtain ⟨hl1, hl2, hpt⟩ := ih (Nat.le_of_succ_le hk1)
    rw [List.range_succ, List.foldl_append, List.foldl_cons, List.foldl_nil]
    set prev := (List.range k).foldl (caskStep elems vol cask_vol)
      (List.replicate elems.length 0, List.replicate elems.length 0) with hprev
    have hx : (if k = 0 then elems.getD k 0 * vol / cask_vol
        else elems.getD k 0 * vol / cask_vol + prev.2.getD (k - 1) 0) =
        (match k with
          | 0 => elems.getD 0 0 * vol / cask_vol
          | y + 1 => elems.getD (y + 1) 0 * vol / cask_vol +
              leftSeq elems vol cask_vol y) := by
      cases k with
      | zero => rfl
      | succ j =>
        rw [if_neg (Nat.succ_ne_zero j), Nat.succ_sub_one,
          (hpt j (Nat.lt_succ_self j)).2]
    have hst1 : (caskStep elems vol cask_vol prev k).1 =
        prev.1.set k (pydivmod1 (if k = 0 then elems.getD k 0 * vol / cask_vol
          else elems.getD k 0 * vol / cask_vol + prev.2.getD (k - 1) 0)).1 := rfl
    have hst2 : (caskStep elems vol cask_vol prev k).2 =
        prev.2.set k (pydivmod1 (if k = 0 then elems.getD k 0 * vol / cask_vol
          else elems.getD k 0 * vol / cask_vol + prev.2.getD (k - 1) 0)).2 := rfl
    have hcs : (pydivmod1 (if k = 0 then elems.getD k 0 * vol / cask_vol
        else elems.getD k 0 * vol / cask_vol + prev.2.getD (k - 1) 0)).1 =
        caskSeq elems vol cask_vol k := by
      rw [hx]
      cases k with
      | zero => rfl
      | succ j => rfl
    have hls : (pydivmod1 (if k = 0 then elems.getD k 0 * vol / cask_vol
        else elems.getD k 0 * vol / cask_vol + prev.2.getD (k - 1) 0)).2 =
        leftSeq elems vol cask_vol k := by
      rw [hx]
      cases k with
      | zero => rfl
      | succ j => rfl
    refine ⟨?_, ?_, ?_⟩
    · rw [hst1, List.length_set]
      exact hl1
    · rw [hst2, List.length_set]
      exact hl2
    · intro y hy
      rcases Nat.lt_succ_iff_lt_or_eq.mp hy with hy2 | hy2
      · have hne : k ≠ y := Nat.ne_of_gt hy2
        exact ⟨by rw [hst1, getD_set_ne _ _ _ _ hne]; exact (hpt y hy2).1,
          by rw [hst2, getD_set_ne _ _ _ _ hne]; exact (hpt y hy2).2⟩
      · subst hy2
        refine ⟨?_, ?_⟩
        · rw [hst1, getD_set_self _ _ _ (by omega)]
          exact hcs
        · rw [hst2, getD_set_self _ _ _ (by omega)]
          exact hls

private theorem sum_eq_getD_sum (l : Col ℚ) :
    l.sum = ∑ t in Finset.range l.length, l.getD t 0 := by
  induction l with
  | nil => simp
  | cons x xs ih =>
    rw [List.sum_cons, List.length_cons, Finset.sum_range_succ']
    simp [ih, add_comm]

private theorem map_sum_getD (elems : Col ℚ) (f : ℚ → ℚ) :
    (elems.map f).sum = ∑ t in Finset.range elems.length, f (elems.getD t 0) := by
  induction elems with
  | nil => simp
  | cons x xs ih =>
    rw [List.map_cons, List.sum_cons, List.length_cons, Finset.sum_range_succ']
    simp [ih, add_comm]

private theorem caskSeq_partial_sum (elems : Col ℚ) (vol cask_vol : ℚ) :
    ∀ k, (∑ t in Finset.range (k + 1), caskSeq elems vol cask_vol t) +
        leftSeq elems vol cask_vol k =
      ∑ t in Finset.range (k + 1), elems.getD t 0 * vol / cask_vol := by
  intro k
  induction k with
  | zero =>
    rw [Finset.sum_range_one, Finset.sum_range_one]
    exact Int.floor_add_fract (elems.getD 0 0 * vol / cask_vol)
  | succ j ih =>
    rw [Finset.sum_range_succ, Finset.sum_range_succ _ (j + 1)]
    have hsplit : caskSeq elems vol cask_vol (j + 1) + leftSeq elems vol cask_vol (j + 1) =
        elems.getD (j + 1) 0 * vol / cask_vol + leftSeq elems vol cask_vol j := by
      simp only [caskSeq, leftSeq]
      exact Int.floor_add_fract _
    calc (∑ t in Finset.range (j + 1), caskSeq elems vol cask_vol t) +
          caskSeq elems vol cask_vol (j + 1) + leftSeq elems vol cask_vol (j + 1)
        = (∑ t in Finset.range (j + 1), caskSeq elems vol cask_vol t) +
          (caskSeq elems vol cask_vol (j + 1) + leftSeq elems vol cask_vol (j + 1)) := by ring
      _ = (∑ t in Finset.range (j + 1), caskSeq elems vol cask_vol t) +
          (elems.getD (j + 1) 0 * vol / cask_vol + leftSeq elems vol cask_vol j) := by
            rw [hsplit]
      _ = ((∑ t in Finset.range (j + 1), caskSeq elems vol cask_vol t) +
          leftSeq elems vol cask_vol j) + elems.getD (j + 1) 0 * vol / cask_vol := by ring
      _ = (∑ t in Finset.range (j + 1), elems.getD t 0 * vol / cask_vol) +
          elems.getD (j + 1) 0 * vol / cask_vol := by rw [ih]

private theorem getD_replicate_zero (n m : ℕ) : (List.replicate n (0:ℚ)).getD m 0 = 0 := by
  by_cases h : m < n
  · simp [List.getD, List.getElem?_replicate, h]
  · simp [List.getD, List.getElem?_replicate, h]

private theorem casksLoop_zeros (n : ℕ) (vol cv : ℚ) :
    casksLoop (List.replicate n 0) vol cv = (List.replicate n 0, List.replicate n 0) := by
  have hdm : pydivmod1 0 = (0, 0) := by
    simp [pydivmod1]
  have hstep : ∀ (year : ℕ),
      caskStep (List.replicate n 0) vol cv
        (List.replicate n 0, List.replicate n 0) year =
      (List.replicate n 0, List.replicate n 0) := by
    intro year
    have hx : (if year = 0 then (List.replicate n (0:ℚ)).getD year 0 * vol / cv
        else (List.replicate n (0:ℚ)).getD year 0 * vol / cv +
          (List.replicate n (0:ℚ)).getD (year - 1) 0) = 0 := by
      rw [getD_replicate_zero, getD_replicate_zero]
      simp
    simp only [caskStep]
    rw [hx, hdm]
    simp
  have hfold : ∀ l : List ℕ, l.foldl (caskStep (List.replicate n 0) vol cv)
      (List.replicate n 0, List.replicate n 0) = (List.replicate n 0, List.replicate n 0) := by
    intro l
    induction l with
    | nil => rfl
    | cons a t ih =>
      rw [List.foldl_cons, hstep a]
      exact ih
  unfold casksLoop
  rw [List.length_replicate]
  exact hfold (List.range n)

end Cask_Calcs

/-- C8: whenever the elements selector of a `Cask_Calcs` object resolves to an
    element column and a per-element volume, with non-negative element counts
    and positive element and cask volumes, `calculate_casks` returns cask and
    leftover columns in which year 0 holds the integer and fractional parts of
    `elems[0]*vol/cask_vol`, every later year holds the integer and fractional
    parts of `elems[y]*vol/cask_vol + leftovers[y-1]`, every carried leftover
    lies in `[0, 1)`, and the casks sum plus the final year's leftover equals
    the total contribution, so the final leftover is exactly the residue that
    is never converted into casks. -/
theorem C8_cask_recurrence (c : Cask_Calcs) (elems : Col ℚ) (vol : ℚ)
    (hsel : c.selectElems = some (elems, vol))
    (helems : ∀ e ∈ elems, 0 ≤ e) (hvol : 0 < vol) (hcv : 0 < c.cask_vol)
    (hn : 0 < elems.length) :
    ∃ casks leftovers : Col ℚ,
      c.calculate_casks = .ok (casks, leftovers) ∧
      casks.getD 0 0 = (⌊elems.getD 0 0 * vol / c.cask_vol⌋ : ℚ) ∧
      leftovers.getD 0 0 = Int.fract (elems.getD 0 0 * vol / c.cask_vol) ∧
      (∀ y, 0 < y → y < elems.length →
        casks.getD y 0 = (⌊elems.getD y 0 * vol / c.cask_vol +
            leftovers.getD (y - 1) 0⌋ : ℚ) ∧
        leftovers.getD y 0 = Int.fract (elems.getD y 0 * vol / c.cask_vol +
            leftovers.getD (y - 1) 0)) ∧
      (∀ y, y < elems.length → 0 ≤ leftovers.getD y 0 ∧ leftovers.getD y 0 < 1) ∧
      casks.sum + leftovers.getD (elems.length - 1) 0 =
        (elems.map (fun e => e * vol / c.cask_vol)).sum := by
  obtain ⟨hL1, hL2, hpt⟩ :=
    Cask_Calcs.caskFold_spec elems vol c.cask_vol elems.length (le_refl _)
  have hL1' : (Cask_Calcs.casksLoop elems vol c.cask_vol).1.length = elems.length := hL1
  have hpt' : ∀ y, y < elems.length →
      (Cask_Calcs.casksLoop elems vol c.cask_vol).1.getD y 0 =
        Cask_Calcs.caskSeq elems vol c.cask_vol y ∧
      (Cask_Calcs.casksLoop elems vol c.cask_vol).2.getD y 0 =
        Cask_Calcs.leftSeq elems vol c.cask_vol y := hpt
  refine ⟨(Cask_Calcs.casksLoop elems vol c.cask_vol).1,
    (Cask_Calcs.casksLoop elems vol c.cask_vol).2, ?_, ?_, ?_, ?_, ?_, ?_⟩
  · unfold Cask_Calcs.calculate_casks
    rw [hsel]
  · exact (hpt' 0 hn).1
  · exact (hpt' 0 hn).2
  · intro y hy0 hyn
    cases y with
    | zero => exact absurd hy0 (lt_irrefl 0)
    | succ j =>
      have hj : j < elems.length := Nat.lt_of_succ_lt hyn
      constructor
      · rw [(hpt' (j + 1) hyn).1, Nat.succ_sub_one, (hpt' j hj).2]
        rfl
      · rw [(hpt' (j + 1) hyn).2, Nat.succ_sub_one, (hpt' j hj).2]
        rfl
  · intro y hy
    rw [(hpt' y hy).2]
    cases y with
    | zero => exact ⟨Int.fract_nonneg _, Int.fract_lt_one _⟩
    | succ j => exact ⟨Int.fract_nonneg _, Int.fract_lt_one _⟩
  · obtain ⟨m, hm⟩ : ∃ m, elems.length = m + 1 :=
      ⟨elems.length - 1, (Nat.succ_pred_eq_of_pos hn).symm⟩
    have hsum1 : (Cask_Calcs.casksLoop elems vol c.cask_vol).1.sum =
        ∑ t in Finset.range (m + 1), Cask_Calcs.caskSeq elems vol c.cask_vol t := by
      rw [Cask_Calcs.sum_eq_getD_sum, hL1', hm]
      exact Finset.sum_congr rfl (fun t ht =>
        (hpt' t (by rw [hm]; exact Finset.mem_range.mp ht)).1)
    have hlast : (Cask_Calcs.casksLoop elems vol c.cask_vol).2.getD
        (elems.length - 1) 0 = Cask_Calcs.leftSeq elems vol c.cask_vol m := by
      have hm1 : elems.length - 1 = m := by omega
      rw [hm1]
      exact (hpt' m (by omega)).2
    rw [hsum1, hlast, Cask_Calcs.map_sum_getD, hm]
    exact Cask_Calcs.caskSeq_partial_sum elems vol c.cask_vol m

/-- Witness applying C8_cask_recurrence at a concrete configuration. -/
theorem C8_cask_recurrence_witness :
    caskPrismExample.selectElems = some ([3, 5], 1) ∧
    (∀ e ∈ ([3, 5] : Col ℚ), 0 ≤ e) ∧ (0 : ℚ) < 1 ∧
    (0 : ℚ) < caskPrismExample.cask_vol ∧ 0 < ([3, 5] : Col ℚ).length ∧
    (∃ casks leftovers : Col ℚ,
      caskPrismExample.calculate_casks = .ok (casks, leftovers) ∧
      casks.getD 0 0 = (⌊([3, 5] : Col ℚ).getD 0 0 * 1 / caskPrismExample.cask_vol⌋ : ℚ) ∧
      leftovers.getD 0 0 =
        Int.fract (([3, 5] : Col ℚ).getD 0 0 * 1 / caskPrismExample.cask_vol) ∧
      (∀ y, 0 < y → y < ([3, 5] : Col ℚ).length →
        casks.getD y 0 = (⌊([3, 5] : Col ℚ).getD y 0 * 1 / caskPrismExample.cask_vol +
            leftovers.getD (y - 1) 0⌋ : ℚ) ∧
        leftovers.getD y 0 =
          Int.fract (([3, 5] : Col ℚ).getD y 0 * 1 / caskPrismExample.cask_vol +
            leftovers.getD (y - 1) 0)) ∧
      (∀ y, y < ([3, 5] : Col ℚ).length →
        0 ≤ leftovers.getD y 0 ∧ leftovers.getD y 0 < 1) ∧
      casks.sum + leftovers.getD (([3, 5] : Col ℚ).length - 1) 0 =
        (([3, 5] : Col ℚ).map (fun e => e * 1 / caskPrismExample.cask_vol)).sum) :=
  ⟨by norm_num [caskPrismExample, Cask_Calcs.selectElems, Cask_Calcs.calculate_num_prisms],
    by decide, by norm_num, by decide, by decide,
    C8_cask_recurrence caskPrismExample [3, 5] 1
      (by norm_num [caskPrismExample, Cask_Calcs.selectElems, Cask_Calcs.calculate_num_prisms])
      (by decide) (by norm_num) (by decide) (by decide)⟩

/-- C9: an elements selector outside {prism, triso, kernel} makes
    calculate_casks produce an error (the source prints its message and then
    raises an UnboundLocalError on `elems`) before any packing is performed:
    no cask or leftover column is ever produced on this path. -/
theorem C9_invalid_selector (c : Cask_Calcs)
    (h1 : c.elements ≠ "prism") (h2 : c.elements ≠ "triso")
    (h3 : c.elements ≠ "kernel") :
    c.calculate_casks = .error "The element you tried is not an option" := by
  unfold Cask_Calcs.calculate_casks Cask_Calcs.selectElems
  rw [if_neg h1, if_neg h2, if_neg h3]

/-- Witness applying C9_invalid_selector at a concrete configuration. -/
theorem C9_invalid_selector_witness :
    caskBadExample.elements ≠ "prism" ∧ caskBadExample.elements ≠ "triso" ∧
    caskBadExample.elements ≠ "kernel" ∧
    caskBadExample.calculate_casks = .error "The element you tried is not an option" :=
  ⟨by decide, by decide, by decide,
    C9_invalid_selector caskBadExample (by decide) (by decide) (by decide)⟩

/-- C10: leaving den_triso at its default (Python False, arithmetic value 0)
    makes calculate_num_trisos return an all-zero count without any error,
    calculate_num_kernels likewise when den_kernel is also defaulted, and a
    'triso' packing run then silently produces zero casks and zero leftovers
    for every year instead of reporting a configuration error.  The
    hypotheses mass_prism different from 0 and cask_vol positive rule out the only
    divisions at which the Python code could raise. -/
theorem C10_defaulted_density_zeros (c : Cask_Calcs)
    (hden : c.den_triso = none) (hmp : c.mass_prism ≠ 0) (hcv : 0 < c.cask_vol) :
    c.calculate_num_trisos = List.replicate c.masses.length 0 ∧
    (c.den_kernel = none →
      c.calculate_num_kernels = List.replicate c.masses.length 0) ∧
    (c.elements = "triso" →
      c.calculate_casks = .ok (List.replicate c.masses.length 0,
        List.replicate c.masses.length 0)) := by
  have htr : c.calculate_num_trisos = List.replicate c.masses.length 0 := by
    unfold Cask_Calcs.calculate_num_trisos
    rw [hden]
    have hfun : (fun p : ℚ => p * pyVal (none : Option ℚ)) = fun _ => (0:ℚ) := by
      funext p
      simp [pyVal]
    rw [hfun, List.map_const']
    unfold Cask_Calcs.calculate_num_prisms
    rw [List.length_map]
  refine ⟨htr, ?_, ?_⟩
  · intro _
    unfold Cask_Calcs.calculate_num_kernels
    rw [htr, List.map_replicate]
    simp
  · intro he
    have h1 : c.elements ≠ "prism" := by
      rw [he]; decide
    have hsel : c.selectElems = some (c.calculate_num_trisos, pyVal c.vol_triso) := by
      unfold Cask_Calcs.selectElems
      rw [if_neg h1, if_pos he]
    unfold Cask_Calcs.calculate_casks
    rw [hsel]
    show Except.ok (Cask_Calcs.casksLoop c.calculate_num_trisos (pyVal c.vol_triso)
      c.cask_vol) = _
    rw [htr, Cask_Calcs.casksLoop_zeros]

/-- Witness applying C10_defaulted_density_zeros at a concrete configuration. -/
theorem C10_defaulted_density_zeros_witness :
    caskTrisoExample.den_triso = none ∧ caskTrisoExample.mass_prism ≠ 0 ∧
    (0 : ℚ) < caskTrisoExample.cask_vol ∧
    (caskTrisoExample.calculate_num_trisos =
        List.replicate caskTrisoExample.masses.length 0 ∧
      (caskTrisoExample.den_kernel = none →
        caskTrisoExample.calculate_num_kernels =
          List.replicate caskTrisoExample.masses.length 0) ∧
      (caskTrisoExample.elements = "triso" →
        caskTrisoExample.calculate_casks =
          .ok (List.replicate caskTrisoExample.masses.length 0,
            List.replicate caskTrisoExample.masses.length 0))) :=
  ⟨by decide, by decide, by decide,
    C10_defaulted_density_zeros caskTrisoExample (by decide) (by decide) (by decide)⟩

private theorem C2eval_scripts :
    (deployment_scripts.greedy_deployment dfC2 "test_cap" arC3).getCol "total_cap" =
      [1330] := by
  have h1 : arC3.foldl (fun df p =>
      if df.hasCol ("num_" ++ p.1) then df
      else df.setCol ("num_" ++ p.1) (List.replicate df.len 0)) dfC2 =
      ⟨1, [("Year", [2016]), ("test_cap", [693]), ("num_ReactorBig", [0]),
        ("num_ReactorMedium", [0]), ("num_ReactorSmall", [0])]⟩ := by
    try simp [dfC2, arC3, DataFrame.setCol, DataFrame.getCol,
      DataFrame.hasCol, DataFrame.len, Col.updAdd, Col.add, List.range_succ, -List.any_eq_true]
    try norm_num
    try simp [DataFrame.setCol, DataFrame.getCol, DataFrame.hasCol, Col.updAdd, Col.add,
      List.range_succ, -List.any_eq_true]
    try norm_num
    try simp [DataFrame.setCol, DataFrame.getCol, DataFrame.hasCol, Col.updAdd, Col.add,
      List.range_succ, -List.any_eq_true]
    try norm_num

  have h2 : deployment_scripts.greedy_year
      ⟨1, [("Year", [2016]), ("test_cap", [693]), ("num_ReactorBig", [0]),
        ("num_ReactorMedium", [0]), ("num_ReactorSmall", [0])]⟩ "test_cap" arC3 0 =
      ⟨1, [("Year", [2016]), ("test_cap", [693]), ("num_ReactorBig", [8]),
        ("num_ReactorMedium", [2]), ("num_ReactorSmall", [130])]⟩ := by
    try simp [deployment_scripts.greedy_year, deployment_scripts.greedy_rstep, arC3, DataFrame.setCol, DataFrame.getCol,
      DataFrame.hasCol, DataFrame.len, Col.updAdd, Col.add, List.range_succ, -List.any_eq_true]
    try norm_num
    try simp [DataFrame.setCol, DataFrame.getCol, DataFrame.hasCol, Col.updAdd, Col.add,
      List.range_succ, -List.any_eq_true]
    try norm_num
    try simp [DataFrame.setCol, DataFrame.getCol, DataFrame.hasCol, Col.updAdd, Col.add,
      List.range_succ, -List.any_eq_true]
    try norm_num
    try simp [DataFrame.setCol, DataFrame.getCol, DataFrame.hasCol, Col.updAdd, Col.add,
      List.range_succ, -List.any_eq_true]
    try norm_num
    try simp [DataFrame.setCol, DataFrame.getCol, DataFrame.hasCol, Col.updAdd, Col.add,
      List.range_succ, -List.any_eq_true]
    try norm_num
    try simp [DataFrame.setCol, DataFrame.getCol, DataFrame.hasCol, Col.updAdd, Col.add,
      List.range_succ, -List.any_eq_true]
    try norm_num
    try simp [DataFrame.setCol, DataFrame.getCol, DataFrame.hasCol, Col.updAdd, Col.add,
      List.range_succ, -List.any_eq_true]
    try norm_num

  have h3 : deployment_scripts.direct_decom
      ⟨1, [("Year", [2016]), ("test_cap", [693]), ("num_ReactorBig", [8]),
        ("num_ReactorMedium", [2]), ("num_ReactorSmall", [130])]⟩ arC3 =
      ⟨1, [("Year", [2016]), ("test_cap", [693]), ("num_ReactorBig", [8]),
        ("num_ReactorMedium", [2]), ("num_ReactorSmall", [130]), ("ReactorBigDecom", [0]),
        ("ReactorMediumDecom", [0]), ("ReactorSmallDecom", [0])]⟩ := by
    try simp [deployment_scripts.direct_decom, deployment_scripts.decomPass, deployment_scripts.decomFrameStep, arC3, DataFrame.setCol, DataFrame.getCol,
      DataFrame.hasCol, DataFrame.len, Col.updAdd, Col.add, List.range_succ, -List.any_eq_true]
    try norm_num
    try simp [DataFrame.setCol, DataFrame.getCol, DataFrame.hasCol, Col.updAdd, Col.add,
      List.range_succ, -List.any_eq_true]
    try norm_num
    try simp [DataFrame.setCol, DataFrame.getCol, DataFrame.hasCol, Col.updAdd, Col.add,
      List.range_succ, -List.any_eq_true]
    try norm_num
    try simp [DataFrame.setCol, DataFrame.getCol, DataFrame.hasCol, Col.updAdd, Col.add,
      List.range_succ, -List.any_eq_true]
    try norm_num
    try simp [DataFrame.setCol, DataFrame.getCol, DataFrame.hasCol, Col.updAdd, Col.add,
      List.range_succ, -List.any_eq_true]
    try norm_num
    try simp [DataFrame.setCol, DataFrame.getCol, DataFrame.hasCol, Col.updAdd, Col.add,
      List.range_succ, -List.any_eq_true]
    try norm_num
    try simp [DataFrame.setCol, DataFrame.getCol, DataFrame.hasCol, Col.updAdd, Col.add,
      List.range_succ, -List.any_eq_true]
    try norm_num

  have h4 : deployment_scripts.num_react_to_cap
      ⟨1, [("Year", [2016]), ("test_cap", [693]), ("num_ReactorBig", [8]),
        ("num_ReactorMedium", [2]), ("num_ReactorSmall", [130]), ("ReactorBigDecom", [0]),
        ("ReactorMediumDecom", [0]), ("ReactorSmallDecom", [0])]⟩ arC3 =
      ⟨1, [("Year", [2016]), ("test_cap", [693]), ("num_ReactorBig", [8]),
        ("num_ReactorMedium", [2]), ("num_ReactorSmall", [130]), ("ReactorBigDecom", [0]),
        ("ReactorMediumDecom", [0]), ("ReactorSmallDecom", [0]), ("total_cap", [1330]),
        ("ReactorBig_cap", [640]), ("ReactorMedium_cap", [40]),
        ("ReactorSmall_cap", [650])]⟩ := by
    try simp [deployment_scripts.num_react_to_cap, arC3, DataFrame.setCol, DataFrame.getCol,
      DataFrame.hasCol, DataFrame.len, Col.updAdd, Col.add, List.range_succ, -List.any_eq_true]
    try norm_num
    try simp [DataFrame.setCol, DataFrame.getCol, DataFrame.hasCol, Col.updAdd, Col.add,
      List.range_succ, -List.any_eq_true]
    try norm_num
    try simp [DataFrame.setCol, DataFrame.getCol, DataFrame.hasCol, Col.updAdd, Col.add,
      List.range_succ, -List.any_eq_true]
    try norm_num
    try simp [DataFrame.setCol, DataFrame.getCol, DataFrame.hasCol, Col.updAdd, Col.add,
      List.range_succ, -List.any_eq_true]
    try norm_num
    try simp [DataFrame.setCol, DataFrame.getCol, DataFrame.hasCol, Col.updAdd, Col.add,
      List.range_succ, -List.any_eq_true]
    try norm_num
    try simp [DataFrame.setCol, DataFrame.getCol, DataFrame.hasCol, Col.updAdd, Col.add,
      List.range_succ, -List.any_eq_true]
    try norm_num
    try simp [DataFrame.setCol, DataFrame.getCol, DataFrame.hasCol, Col.updAdd, Col.add,
      List.range_succ, -List.any_eq_true]
    try norm_num

  unfold deployment_scripts.greedy_deployment
  rw [h1]
  try simp [DataFrame.getCol, List.range_succ, -List.any_eq_true]
  try norm_num
  try simp only [List.range_succ, List.range_zero, List.foldl_append, List.foldl_cons,
    List.foldl_nil, List.nil_append]
  try rw [h2]
  try rw [h3]
  try rw [h4]
  try simp [DataFrame.getCol, -List.any_eq_true]
  try norm_num

private theorem C2eval_script :
    (deployment_script.greedy_deployment dfC2 "test_cap" arC3).getCol "new_cap" =
      [690] := by
  have h1 : arC3.foldl (fun df p =>
      if df.hasCol ("num_" ++ p.1) then df
      else df.setCol ("num_" ++ p.1) (List.replicate df.len 0)) dfC2 =
      ⟨1, [("Year", [2016]), ("test_cap", [693]), ("num_ReactorBig", [0]),
        ("num_ReactorMedium", [0]), ("num_ReactorSmall", [0])]⟩ := by
    try simp [dfC2, arC3, DataFrame.setCol, DataFrame.getCol,
      DataFrame.hasCol, DataFrame.len, Col.updAdd, Col.add, List.range_succ, -List.any_eq_true]
    try norm_num
    try simp [DataFrame.setCol, DataFrame.getCol, DataFrame.hasCol, Col.updAdd, Col.add,
      List.range_succ, -List.any_eq_true]
    try norm_num
    try simp [DataFrame.setCol, DataFrame.getCol, DataFrame.hasCol, Col.updAdd, Col.add,
      List.range_succ, -List.any_eq_true]
    try norm_num

  have h2 : deployment_script.greedy_year
      ⟨1, [("Year", [2016]), ("test_cap", [693]), ("num_ReactorBig", [0]),
        ("num_ReactorMedium", [0]), ("num_ReactorSmall", [0])]⟩ "test_cap" arC3 0 =
      ⟨1, [("Year", [2016]), ("test_cap", [693]), ("num_ReactorBig", [8]),
        ("num_ReactorMedium", [2]), ("num_ReactorSmall", [2])]⟩ := by
    try simp [deployment_script.greedy_year, deployment_script.greedy_rstep, arC3, DataFrame.setCol, DataFrame.getCol,
      DataFrame.hasCol, DataFrame.len, Col.updAdd, Col.add, List.range_succ, -List.any_eq_true]
    try norm_num
    try simp [DataFrame.setCol, DataFrame.getCol, DataFrame.hasCol, Col.updAdd, Col.add,
      List.range_succ, -List.any_eq_true]
    try norm_num
    try simp [DataFrame.setCol, DataFrame.getCol, DataFrame.hasCol, Col.updAdd, Col.add,
      List.range_succ, -List.any_eq_true]
    try norm_num
    try simp [DataFrame.setCol, DataFrame.getCol, DataFrame.hasCol, Col.updAdd, Col.add,
      List.range_succ, -List.any_eq_true]
    try norm_num
    try simp [DataFrame.setCol, DataFrame.getCol, DataFrame.hasCol, Col.updAdd, Col.add,
      List.range_succ, -List.any_eq_true]
    try norm_num
    try simp [DataFrame.setCol, DataFrame.getCol, DataFrame.hasCol, Col.updAdd, Col.add,
      List.range_succ, -List.any_eq_true]
    try norm_num
    try simp [DataFrame.setCol, DataFrame.getCol, DataFrame.hasCol, Col.updAdd, Col.add,
      List.range_succ, -List.any_eq_true]
    try norm_num

  have h3 : deployment_scripts.direct_decom
      ⟨1, [("Year", [2016]), ("test_cap", [693]), ("num_ReactorBig", [8]),
        ("num_ReactorMedium", [2]), ("num_ReactorSmall", [2])]⟩ arC3 =
      ⟨1, [("Year", [2016]), ("test_cap", [693]), ("num_ReactorBig", [8]),
        ("num_ReactorMedium", [2]), ("num_ReactorSmall", [2]), ("ReactorBigDecom", [0]),
        ("ReactorMediumDecom", [0]), ("ReactorSmallDecom", [0])]⟩ := by
    try simp [deployment_scripts.direct_decom, deployment_scripts.decomPass, deployment_scripts.decomFrameStep, arC3, DataFrame.setCol, DataFrame.getCol,
      DataFrame.hasCol, DataFrame.len, Col.updAdd, Col.add, List.range_succ, -List.any_eq_true]
    try norm_num
    try simp [DataFrame.setCol, DataFrame.getCol, DataFrame.hasCol, Col.updAdd, Col.add,
      List.range_succ, -List.any_eq_true]
    try norm_num
    try simp [DataFrame.setCol, DataFrame.getCol, DataFrame.hasCol, Col.updAdd, Col.add,
      List.range_succ, -List.any_eq_true]
    try norm_num
    try simp [DataFrame.setCol, DataFrame.getCol, DataFrame.hasCol, Col.updAdd, Col.add,
      List.range_succ, -List.any_eq_true]
    try norm_num
    try simp [DataFrame.setCol, DataFrame.getCol, DataFrame.hasCol, Col.updAdd, Col.add,
      List.range_succ, -List.any_eq_true]
    try norm_num
    try simp [DataFrame.setCol, DataFrame.getCol, DataFrame.hasCol, Col.updAdd, Col.add,
      List.range_succ, -List.any_eq_true]
    try norm_num
    try simp [DataFrame.setCol, DataFrame.getCol, DataFrame.hasCol, Col.updAdd, Col.add,
      List.range_succ, -List.any_eq_true]
    try norm_num

  have h4 : deployment_script.num_react_to_cap
      ⟨1, [("Year", [2016]), ("test_cap", [693]), ("num_ReactorBig", [8]),
        ("num_ReactorMedium", [2]), ("num_ReactorSmall", [2]), ("ReactorBigDecom", [0]),
        ("ReactorMediumDecom", [0]), ("ReactorSmallDecom", [0])]⟩ arC3 =
      ⟨1, [("Year", [2016]), ("test_cap", [693]), ("num_ReactorBig", [8]),
        ("num_ReactorMedium", [2]), ("num_ReactorSmall", [2]), ("ReactorBigDecom", [0]),
        ("ReactorMediumDecom", [0]), ("ReactorSmallDecom", [0]), ("total_cap", [690]),
        ("new_cap", [690]), ("new_ReactorBig_cap", [640]), ("ReactorBig_cap", [640]),
        ("new_ReactorMedium_cap", [40]), ("ReactorMedium_cap", [40]),
        ("new_ReactorSmall_cap", [10]), ("ReactorSmall_cap", [10])]⟩ := by
    try simp [deployment_script.num_react_to_cap, arC3, DataFrame.setCol, DataFrame.getCol,
      DataFrame.hasCol, DataFrame.len, Col.updAdd, Col.add, List.range_succ, -List.any_eq_true]
    try norm_num
    try simp [DataFrame.setCol, DataFrame.getCol, DataFrame.hasCol, Col.updAdd, Col.add,
      List.range_succ, -List.any_eq_true]
    try norm_num
    try simp [DataFrame.setCol, DataFrame.getCol, DataFrame.hasCol, Col.updAdd, Col.add,
      List.range_succ, -List.any_eq_true]
    try norm_num
    try simp [DataFrame.setCol, DataFrame.getCol, DataFrame.hasCol, Col.updAdd, Col.add,
      List.range_succ, -List.any_eq_true]
    try norm_num
    try simp [DataFrame.setCol, DataFrame.getCol, DataFrame.hasCol, Col.updAdd, Col.add,
      List.range_succ, -List.any_eq_true]
    try norm_num
    try simp [DataFrame.setCol, DataFrame.getCol, DataFrame.hasCol, Col.updAdd, Col.add,
      List.range_succ, -List.any_eq_true]
    try norm_num
    try simp [DataFrame.setCol, DataFrame.getCol, DataFrame.hasCol, Col.updAdd, Col.add,
      List.range_succ, -List.any_eq_true]
    try norm_num

  unfold deployment_script.greedy_deployment
  rw [h1]
  try simp [DataFrame.getCol, List.range_succ, -List.any_eq_true]
  try norm_num
  try simp only [List.range_succ, List.range_zero, List.foldl_append, List.foldl_cons,
    List.foldl_nil, List.nil_append]
  try rw [h2]
  unfold deployment_script.direct_decom
  try rw [h3]
  try rw [h4]
  try simp [DataFrame.getCol, -List.any_eq_true]
  try norm_num

/-- C2: the deployment_scripts.py greedy_deployment overshoots the demand.  On
    a one-step ledger with demand 693 and the test fleet it deploys
    8 ReactorBig + 2 ReactorMedium + 130 ReactorSmall = 1330 MWe, exceeding
    the 693 MWe demand, because its inner loop resets remaining_cap from the
    original demand after every reactor.  The repository's own test module
    imports this copy and expects 690 MWe at that step; the third conjunct
    shows the cumulative deployment_script.py variant staying at 690 on the
    same input. -/
theorem C2_greedy_overshoot :
    (deployment_scripts.greedy_deployment dfC2 "test_cap" arC3).getCol "total_cap" =
      [1330] ∧
    ¬((1330 : ℚ) ≤ 693) ∧
    (deployment_script.greedy_deployment dfC2 "test_cap" arC3).getCol "new_cap" =
      [690] :=
  ⟨C2eval_scripts, by norm_num, C2eval_script⟩

/-- C3: on the nine-step test demand curve with the test fleet, the
    deployment_script.py greedy pipeline achieves the newly-deployed capacity
    sequence [20, 75, 80, 80, 220, 640, 690, 950, 700] (the new_cap column),
    records exactly one ReactorBig decommissioning event, at step index 8,
    and the final count column shows ReactorBig first commissioned at step
    index 2 (counts [0, 0, 1, ...]), so the single decommissioning falls
    exactly lifetime 6 after the first deployment, with the replacement
    raising the final count at step 8 from 8 to 9. -/
theorem C3_concrete_scenario :
    (deployment_script.greedy_deployment dfC3 "test_cap" arC3).getCol "new_cap" =
      [20, 75, 80, 80, 220, 640, 690, 950, 700] ∧
    (deployment_script.greedy_deployment dfC3 "test_cap" arC3).getCol "ReactorBigDecom" =
      [0, 0, 0, 0, 0, 0, 0, 0, 1] ∧
    (deployment_script.greedy_deployment dfC3 "test_cap" arC3).getCol "num_ReactorBig" =
      [0, 0, 1, 1, 2, 8, 8, 11, 9] := by
  have hinit : arC3.foldl (fun df p =>
      if df.hasCol ("num_" ++ p.1) then df
      else df.setCol ("num_" ++ p.1) (List.replicate df.len 0)) dfC3 =
      ⟨9, [("Year", [2016, 2017, 2018, 2019, 2020, 2021, 2022, 2023, 2024]), ("test_cap", [20, 79, 80, 81, 220, 640, 693, 950, 700]), ("num_ReactorBig", [0, 0, 0, 0, 0, 0, 0, 0, 0]), ("num_ReactorMedium", [0, 0, 0, 0, 0, 0, 0, 0, 0]), ("num_ReactorSmall", [0, 0, 0, 0, 0, 0, 0, 0, 0])]⟩ := by
    try simp [dfC3, arC3, DataFrame.setCol, DataFrame.getCol,
      DataFrame.hasCol, DataFrame.len, Col.updAdd, Col.add, List.range_succ, -List.any_eq_true]
    try norm_num
    try simp [DataFrame.setCol, DataFrame.getCol, DataFrame.hasCol, Col.updAdd, Col.add,
      List.range_succ, -List.any_eq_true]
    try norm_num
    try simp [DataFrame.setCol, DataFrame.getCol, DataFrame.hasCol, Col.updAdd, Col.add,
      List.range_succ, -List.any_eq_true]
    try norm_num

  have hg0 : deployment_script.greedy_year ⟨9, [("Year", [2016, 2017, 2018, 2019, 2020, 2021, 2022, 2023, 2024]), ("test_cap", [20, 79, 80, 81, 220, 640, 693, 950, 700]), ("num_ReactorBig", [0, 0, 0, 0, 0, 0, 0, 0, 0]), ("num_ReactorMedium", [0, 0, 0, 0, 0, 0, 0, 0, 0]), ("num_ReactorSmall", [0, 0, 0, 0, 0, 0, 0, 0, 0])]⟩ "test_cap" arC3 0 = ⟨9, [("Year", [2016, 2017, 2018, 2019, 2020, 2021, 2022, 2023, 2024]), ("test_cap", [20, 79, 80, 81, 220, 640, 693, 950, 700]), ("num_ReactorBig", [0, 0, 0, 0, 0, 0, 0, 0, 0]), ("num_ReactorMedium", [1, 0, 0, 0, 0, 0, 0, 0, 0]), ("num_ReactorSmall", [0, 0, 0, 0, 0, 0, 0, 0, 0])]⟩ := by
    try simp [deployment_script.greedy_year, deployment_script.greedy_rstep, arC3, DataFrame.setCol, DataFrame.getCol,
      DataFrame.hasCol, DataFrame.len, Col.updAdd, Col.add, List.range_succ, -List.any_eq_true]
    try norm_num
    try simp [DataFrame.setCol, DataFrame.getCol, DataFrame.hasCol, Col.updAdd, Col.add,
      List.range_succ, -List.any_eq_true]
    try norm_num
    try simp [DataFrame.setCol, DataFrame.getCol, DataFrame.hasCol, Col.updAdd, Col.add,
      List.range_succ, -List.any_eq_true]
    try norm_num
    try simp [DataFrame.setCol, DataFrame.getCol, DataFrame.hasCol, Col.updAdd, Col.add,
      List.range_succ, -List.any_eq_true]
    try norm_num
    try simp [DataFrame.setCol, DataFrame.getCol, DataFrame.hasCol, Col.updAdd, Col.add,
      List.range_succ, -List.any_eq_true]
    try norm_num
    try simp [DataFrame.setCol, DataFrame.getCol, DataFrame.hasCol, Col.updAdd, Col.add,
      List.range_succ, -List.any_eq_true]
    try norm_num
    try simp [DataFrame.setCol, DataFrame.getCol, DataFrame.hasCol, Col.updAdd, Col.add,
      List.range_succ, -List.any_eq_true]
    try norm_num

  have hg1 : deployment_script.greedy_year ⟨9, [("Year", [2016, 2017, 2018, 2019, 2020, 2021, 2022, 2023, 2024]), ("test_cap", [20, 79, 80, 81, 220, 640, 693, 950, 700]), ("num_ReactorBig", [0, 0, 0, 0, 0, 0, 0, 0, 0]), ("num_ReactorMedium", [1, 0, 0, 0, 0, 0, 0, 0, 0]), ("num_ReactorSmall", [0, 0, 0, 0, 0, 0, 0, 0, 0])]⟩ "test_cap" arC3 1 = ⟨9, [("Year", [2016, 2017, 2018, 2019, 2020, 2021, 2022, 2023, 2024]), ("test_cap", [20, 79, 80, 81, 220, 640, 693, 950, 700]), ("num_ReactorBig", [0, 0, 0, 0, 0, 0, 0, 0, 0]), ("num_ReactorMedium", [1, 3, 0, 0, 0, 0, 0, 0, 0]), ("num_ReactorSmall", [0, 3, 0, 0, 0, 0, 0, 0, 0])]⟩ := by
    try simp [deployment_script.greedy_year, deployment_script.greedy_rstep, arC3, DataFrame.setCol, DataFrame.getCol,
      DataFrame.hasCol, DataFrame.len, Col.updAdd, Col.add, List.range_succ, -List.any_eq_true]
    try norm_num
    try simp [DataFrame.setCol, DataFrame.getCol, DataFrame.hasCol, Col.updAdd, Col.add,
      List.range_succ, -List.any_eq_true]
    try norm_num
    try simp [DataFrame.setCol, DataFrame.getCol, DataFrame.hasCol, Col.updAdd, Col.add,
      List.range_succ, -List.any_eq_true]
    try norm_num
    try simp [DataFrame.setCol, DataFrame.getCol, DataFrame.hasCol, Col.updAdd, Col.add,
      List.range_succ, -List.any_eq_true]
    try norm_num
    try simp [DataFrame.setCol, DataFrame.getCol, DataFrame.hasCol, Col.updAdd, Col.add,
      List.range_succ, -List.any_eq_true]
    try norm_num
    try simp [DataFrame.setCol, DataFrame.getCol, DataFrame.hasCol, Col.updAdd, Col.add,
      List.range_succ, -List.any_eq_true]
    try norm_num
    try simp [DataFrame.setCol, DataFrame.getCol, DataFrame.hasCol, Col.updAdd, Col.add,
      List.range_succ, -List.any_eq_true]
    try norm_num

  have hg2 : deployment_script.greedy_year ⟨9, [("Year", [2016, 2017, 2018, 2019, 2020, 2021, 2022, 2023, 2024]), ("test_cap", [20, 79, 80, 81, 220, 640, 693, 950, 700]), ("num_ReactorBig", [0, 0, 0, 0, 0, 0, 0, 0, 0]), ("num_ReactorMedium", [1, 3, 0, 0, 0, 0, 0, 0, 0]), ("num_ReactorSmall", [0, 3, 0, 0, 0, 0, 0, 0, 0])]⟩ "test_cap" arC3 2 = ⟨9, [("Year", [2016, 2017, 2018, 2019, 2020, 2021, 2022, 2023, 2024]), ("test_cap", [20, 79, 80, 81, 220, 640, 693, 950, 700]), ("num_ReactorBig", [0, 0, 1, 0, 0, 0, 0, 0, 0]), ("num_ReactorMedium", [1, 3, 0, 0, 0, 0, 0, 0, 0]), ("num_ReactorSmall", [0, 3, 0, 0, 0, 0, 0, 0, 0])]⟩ := by
    try simp [deployment_script.greedy_year, deployment_script.greedy_rstep, arC3, DataFrame.setCol, DataFrame.getCol,
      DataFrame.hasCol, DataFrame.len, Col.updAdd, Col.add, List.range_succ, -List.any_eq_true]
    try norm_num
    try simp [DataFrame.setCol, DataFrame.getCol, DataFrame.hasCol, Col.updAdd, Col.add,
      List.range_succ, -List.any_eq_true]
    try norm_num
    try simp [DataFrame.setCol, DataFrame.getCol, DataFrame.hasCol, Col.updAdd, Col.add,
      List.range_succ, -List.any_eq_true]
    try norm_num
    try simp [DataFrame.setCol, DataFrame.getCol, DataFrame.hasCol, Col.updAdd, Col.add,
      List.range_succ, -List.any_eq_true]
    try norm_num
    try simp [DataFrame.setCol, DataFrame.getCol, DataFrame.hasCol, Col.updAdd, Col.add,
      List.range_succ, -List.any_eq_true]
    try norm_num
    try simp [DataFrame.setCol, DataFrame.getCol, DataFrame.hasCol, Col.updAdd, Col.add,
      List.range_succ, -List.any_eq_true]
    try norm_num
    try simp [DataFrame.setCol, DataFrame.getCol, DataFrame.hasCol, Col.updAdd, Col.add,
      List.range_succ, -List.any_eq_true]
    try norm_num

  have hg3 : deployment_script.greedy_year ⟨9, [("Year", [2016, 2017, 2018, 2019, 2020, 2021, 2022, 2023, 2024]), ("test_cap", [20, 79, 80, 81, 220, 640, 693, 950, 700]), ("num_ReactorBig", [0, 0, 1, 0, 0, 0, 0, 0, 0]), ("num_ReactorMedium", [1, 3, 0, 0, 0, 0, 0, 0, 0]), ("num_ReactorSmall", [0, 3, 0, 0, 0, 0, 0, 0, 0])]⟩ "test_cap" arC3 3 = ⟨9, [("Year", [2016, 2017, 2018, 2019, 2020, 2021, 2022, 2023, 2024]), ("test_cap", [20, 79, 80, 81, 220, 640, 693, 950, 700]), ("num_ReactorBig", [0, 0, 1, 1, 0, 0, 0, 0, 0]), ("num_ReactorMedium", [1, 3, 0, 0, 0, 0, 0, 0, 0]), ("num_ReactorSmall", [0, 3, 0, 0, 0, 0, 0, 0, 0])]⟩ := by
    try simp [deployment_script.greedy_year, deployment_script.greedy_rstep, arC3, DataFrame.setCol, DataFrame.getCol,
      DataFrame.hasCol, DataFrame.len, Col.updAdd, Col.add, List.range_succ, -List.any_eq_true]
    try norm_num
    try simp [DataFrame.setCol, DataFrame.getCol, DataFrame.hasCol, Col.updAdd, Col.add,
      List.range_succ, -List.any_eq_true]
    try norm_num
    try simp [DataFrame.setCol, DataFrame.getCol, DataFrame.hasCol, Col.updAdd, Col.add,
      List.range_succ, -List.any_eq_true]
    try norm_num
    try simp [DataFrame.setCol, DataFrame.getCol, DataFrame.hasCol, Col.updAdd, Col.add,
      List.range_succ, -List.any_eq_true]
    try norm_num
    try simp [DataFrame.setCol, DataFrame.getCol, DataFrame.hasCol, Col.updAdd, Col.add,
      List.range_succ, -List.any_eq_true]
    try norm_num
    try simp [DataFrame.setCol, DataFrame.getCol, DataFrame.hasCol, Col.updAdd, Col.add,
      List.range_succ, -List.any_eq_true]
    try norm_num
    try simp [DataFrame.setCol, DataFrame.getCol, DataFrame.hasCol, Col.updAdd, Col.add,
      List.range_succ, -List.any_eq_true]
    try norm_num

  have hg4 : deployment_script.greedy_year ⟨9, [("Year", [2016, 2017, 2018, 2019, 2020, 2021, 2022, 2023, 2024]), ("test_cap", [20, 79, 80, 81, 220, 640, 693, 950, 700]), ("num_ReactorBig", [0, 0, 1, 1, 0, 0, 0, 0, 0]), ("num_ReactorMedium", [1, 3, 0, 0, 0, 0, 0, 0, 0]), ("num_ReactorSmall", [0, 3, 0, 0, 0, 0, 0, 0, 0])]⟩ "test_cap" arC3 4 = ⟨9, [("Year", [2016, 2017, 2018, 2019, 2020, 2021, 2022, 2023, 2024]), ("test_cap", [20, 79, 80, 81, 220, 640, 693, 950, 700]), ("num_ReactorBig", [0, 0, 1, 1, 2, 0, 0, 0, 0]), ("num_ReactorMedium", [1, 3, 0, 0, 3, 0, 0, 0, 0]), ("num_ReactorSmall", [0, 3, 0, 0, 0, 0, 0, 0, 0])]⟩ := by
    try simp [deployment_script.greedy_year, deployment_script.greedy_rstep, arC3, DataFrame.setCol, DataFrame.getCol,
      DataFrame.hasCol, DataFrame.len, Col.updAdd, Col.add, List.range_succ, -List.any_eq_true]
    try norm_num
    try simp [DataFrame.setCol, DataFrame.getCol, DataFrame.hasCol, Col.updAdd, Col.add,
      List.range_succ, -List.any_eq_true]
    try norm_num
    try simp [DataFrame.setCol, DataFrame.getCol, DataFrame.hasCol, Col.updAdd, Col.add,
      List.range_succ, -List.any_eq_true]
    try norm_num
    try simp [DataFrame.setCol, DataFrame.getCol, DataFrame.hasCol, Col.updAdd, Col.add,
      List.range_succ, -List.any_eq_true]
    try norm_num
    try simp [DataFrame.setCol, DataFrame.getCol, DataFrame.hasCol, Col.updAdd, Col.add,
      List.range_succ, -List.any_eq_true]
    try norm_num
    try simp [DataFrame.setCol, DataFrame.getCol, DataFrame.hasCol, Col.updAdd, Col.add,
      List.range_succ, -List.any_eq_true]
    try norm_num
    try simp [DataFrame.setCol, DataFrame.getCol, DataFrame.hasCol, Col.updAdd, Col.add,
      List.range_succ, -List.any_eq_true]
    try norm_num

  have hg5 : deployment_script.greedy_year ⟨9, [("Year", [2016, 2017, 2018, 2019, 2020, 2021, 2022, 2023, 2024]), ("test_cap", [20, 79, 80, 81, 220, 640, 693, 950, 700]), ("num_ReactorBig", [0, 0, 1, 1, 2, 0, 0, 0, 0]), ("num_ReactorMedium", [1, 3, 0, 0, 3, 0, 0, 0, 0]), ("num_ReactorSmall", [0, 3, 0, 0, 0, 0, 0, 0, 0])]⟩ "test_cap" arC3 5 = ⟨9, [("Year", [2016, 2017, 2018, 2019, 2020, 2021, 2022, 2023, 2024]), ("test_cap", [20, 79, 80, 81, 220, 640, 693, 950, 700]), ("num_ReactorBig", [0, 0, 1, 1, 2, 8, 0, 0, 0]), ("num_ReactorMedium", [1, 3, 0, 0, 3, 0, 0, 0, 0]), ("num_ReactorSmall", [0, 3, 0, 0, 0, 0, 0, 0, 0])]⟩ := by
    try simp [deployment_script.greedy_year, deployment_script.greedy_rstep, arC3, DataFrame.setCol, DataFrame.getCol,
      DataFrame.hasCol, DataFrame.len, Col.updAdd, Col.add, List.range_succ, -List.any_eq_true]
    try norm_num
    try simp [DataFrame.setCol, DataFrame.getCol, DataFrame.hasCol, Col.updAdd, Col.add,
      List.range_succ, -List.any_eq_true]
    try norm_num
    try simp [DataFrame.setCol, DataFrame.getCol, DataFrame.hasCol, Col.updAdd, Col.add,
      List.range_succ, -List.any_eq_true]
    try norm_num
    try simp [DataFrame.setCol, DataFrame.getCol, DataFrame.hasCol, Col.updAdd, Col.add,
      List.range_succ, -List.any_eq_true]
    try norm_num
    try simp [DataFrame.setCol, DataFrame.getCol, DataFrame.hasCol, Col.updAdd, Col.add,
      List.range_succ, -List.any_eq_true]
    try norm_num
    try simp [DataFrame.setCol, DataFrame.getCol, DataFrame.hasCol, Col.updAdd, Col.add,
      List.range_succ, -List.any_eq_true]
    try norm_num
    try simp [DataFrame.setCol, DataFrame.getCol, DataFrame.hasCol, Col.updAdd, Col.add,
      List.range_succ, -List.any_eq_true]
    try norm_num

  have hg6 : deployment_script.greedy_year ⟨9, [("Year", [2016, 2017, 2018, 2019, 2020, 2021, 2022, 2023, 2024]), ("test_cap", [20, 79, 80, 81, 220, 640, 693, 950, 700]), ("num_ReactorBig", [0, 0, 1, 1, 2, 8, 0, 0, 0]), ("num_ReactorMedium", [1, 3, 0, 0, 3, 0, 0, 0, 0]), ("num_ReactorSmall", [0, 3, 0, 0, 0, 0, 0, 0, 0])]⟩ "test_cap" arC3 6 = ⟨9, [("Year", [2016, 2017, 2018, 2019, 2020, 2021, 2022, 2023, 2024]), ("test_cap", [20, 79, 80, 81, 220, 640, 693, 950, 700]), ("num_ReactorBig", [0, 0, 1, 1, 2, 8, 8, 0, 0]), ("num_ReactorMedium", [1, 3, 0, 0, 3, 0, 2, 0, 0]), ("num_ReactorSmall", [0, 3, 0, 0, 0, 0, 2, 0, 0])]⟩ := by
    try simp [deployment_script.greedy_year, deployment_script.greedy_rstep, arC3, DataFrame.setCol, DataFrame.getCol,
      DataFrame.hasCol, DataFrame.len, Col.updAdd, Col.add, List.range_succ, -List.any_eq_true]
    try norm_num
    try simp [DataFrame.setCol, DataFrame.getCol, DataFrame.hasCol, Col.updAdd, Col.add,
      List.range_succ, -List.any_eq_true]
    try norm_num
    try simp [DataFrame.setCol, DataFrame.getCol, DataFrame.hasCol, Col.updAdd, Col.add,
      List.range_succ, -List.any_eq_true]
    try norm_num
    try simp [DataFrame.setCol, DataFrame.getCol, DataFrame.hasCol, Col.updAdd, Col.add,
      List.range_succ, -List.any_eq_true]
    try norm_num
    try simp [DataFrame.setCol, DataFrame.getCol, DataFrame.hasCol, Col.updAdd, Col.add,
      List.range_succ, -List.any_eq_true]
    try norm_num
    try simp [DataFrame.setCol, DataFrame.getCol, DataFrame.hasCol, Col.updAdd, Col.add,
      List.range_succ, -List.any_eq_true]
    try norm_num
    try simp [DataFrame.setCol, DataFrame.getCol, DataFrame.hasCol, Col.updAdd, Col.add,
      List.range_succ, -List.any_eq_true]
    try norm_num

  have hg7 : deployment_script.greedy_year ⟨9, [("Year", [2016, 2017, 2018, 2019, 2020, 2021, 2022, 2023, 2024]), ("test_cap", [20, 79, 80, 81, 220, 640, 693, 950, 700]), ("num_ReactorBig", [0, 0, 1, 1, 2, 8, 8, 0, 0]), ("num_ReactorMedium", [1, 3, 0, 0, 3, 0, 2, 0, 0]), ("num_ReactorSmall", [0, 3, 0, 0, 0, 0, 2, 0, 0])]⟩ "test_cap" arC3 7 = ⟨9, [("Year", [2016, 2017, 2018, 2019, 2020, 2021, 2022, 2023, 2024]), ("test_cap", [20, 79, 80, 81, 220, 640, 693, 950, 700]), ("num_ReactorBig", [0, 0, 1, 1, 2, 8, 8, 11, 0]), ("num_ReactorMedium", [1, 3, 0, 0, 3, 0, 2, 3, 0]), ("num_ReactorSmall", [0, 3, 0, 0, 0, 0, 2, 2, 0])]⟩ := by
    try simp [deployment_script.greedy_year, deployment_script.greedy_rstep, arC3, DataFrame.setCol, DataFrame.getCol,
      DataFrame.hasCol, DataFrame.len, Col.updAdd, Col.add, List.range_succ, -List.any_eq_true]
    try norm_num
    try simp [DataFrame.setCol, DataFrame.getCol, DataFrame.hasCol, Col.updAdd, Col.add,
      List.range_succ, -List.any_eq_true]
    try norm_num
    try simp [DataFrame.setCol, DataFrame.getCol, DataFrame.hasCol, Col.updAdd, Col.add,
      List.range_succ, -List.any_eq_true]
    try norm_num
    try simp [DataFrame.setCol, DataFrame.getCol, DataFrame.hasCol, Col.updAdd, Col.add,
      List.range_succ, -List.any_eq_true]
    try norm_num
    try simp [DataFrame.setCol, DataFrame.getCol, DataFrame.hasCol, Col.updAdd, Col.add,
      List.range_succ, -List.any_eq_true]
    try norm_num
    try simp [DataFrame.setCol, DataFrame.getCol, DataFrame.hasCol, Col.updAdd, Col.add,
      List.range_succ, -List.any_eq_true]
    try norm_num
    try simp [DataFrame.setCol, DataFrame.getCol, DataFrame.hasCol, Col.updAdd, Col.add,
      List.range_succ, -List.any_eq_true]
    try norm_num

  have hg8 : deployment_script.greedy_year ⟨9, [("Year", [2016, 2017, 2018, 2019, 2020, 2021, 2022, 2023, 2024]), ("test_cap", [20, 79, 80, 81, 220, 640, 693, 950, 700]), ("num_ReactorBig", [0, 0, 1, 1, 2, 8, 8, 11, 0]), ("num_ReactorMedium", [1, 3, 0, 0, 3, 0, 2, 3, 0]), ("num_ReactorSmall", [0, 3, 0, 0, 0, 0, 2, 2, 0])]⟩ "test_cap" arC3 8 = ⟨9, [("Year", [2016, 2017, 2018, 2019, 2020, 2021, 2022, 2023, 2024]), ("test_cap", [20, 79, 80, 81, 220, 640, 693, 950, 700]), ("num_ReactorBig", [0, 0, 1, 1, 2, 8, 8, 11, 8]), ("num_ReactorMedium", [1, 3, 0, 0, 3, 0, 2, 3, 3]), ("num_ReactorSmall", [0, 3, 0, 0, 0, 0, 2, 2, 0])]⟩ := by
    try simp [deployment_script.greedy_year, deployment_script.greedy_rstep, arC3, DataFrame.setCol, DataFrame.getCol,
      DataFrame.hasCol, DataFrame.len, Col.updAdd, Col.add, List.range_succ, -List.any_eq_true]
    try norm_num
    try simp [DataFrame.setCol, DataFrame.getCol, DataFrame.hasCol, Col.updAdd, Col.add,
      List.range_succ, -List.any_eq_true]
    try norm_num
    try simp [DataFrame.setCol, DataFrame.getCol, DataFrame.hasCol, Col.updAdd, Col.add,
      List.range_succ, -List.any_eq_true]
    try norm_num
    try simp [DataFrame.setCol, DataFrame.getCol, DataFrame.hasCol, Col.updAdd, Col.add,
      List.range_succ, -List.any_eq_true]
    try norm_num
    try simp [DataFrame.setCol, DataFrame.getCol, DataFrame.hasCol, Col.updAdd, Col.add,
      List.range_succ, -List.any_eq_true]
    try norm_num
    try simp [DataFrame.setCol, DataFrame.getCol, DataFrame.hasCol, Col.updAdd, Col.add,
      List.range_succ, -List.any_eq_true]
    try norm_num
    try simp [DataFrame.setCol, DataFrame.getCol, DataFrame.hasCol, Col.updAdd, Col.add,
      List.range_succ, -List.any_eq_true]
    try norm_num

  have hd0 : deployment_scripts.decomPass ⟨9, [("Year", [2016, 2017, 2018, 2019, 2020, 2021, 2022, 2023, 2024]), ("test_cap", [20, 79, 80, 81, 220, 640, 693, 950, 700]), ("num_ReactorBig", [0, 0, 1, 1, 2, 8, 8, 11, 8]), ("num_ReactorMedium", [1, 3, 0, 0, 3, 0, 2, 3, 3]), ("num_ReactorSmall", [0, 3, 0, 0, 0, 0, 2, 2, 0])]⟩ ("ReactorBig", ⟨80, 1, 6⟩) = ⟨9, [("Year", [2016, 2017, 2018, 2019, 2020, 2021, 2022, 2023, 2024]), ("test_cap", [20, 79, 80, 81, 220, 640, 693, 950, 700]), ("num_ReactorBig", [0, 0, 1, 1, 2, 8, 8, 11, 9]), ("num_ReactorMedium", [1, 3, 0, 0, 3, 0, 2, 3, 3]), ("num_ReactorSmall", [0, 3, 0, 0, 0, 0, 2, 2, 0]), ("ReactorBigDecom", [0, 0, 0, 0, 0, 0, 0, 0, 1])]⟩ := by
    try simp [deployment_scripts.decomPass, deployment_scripts.decomFrameStep, DataFrame.setCol, DataFrame.getCol,
      DataFrame.hasCol, DataFrame.len, Col.updAdd, Col.add, List.range_succ, -List.any_eq_true]
    try norm_num
    try simp [DataFrame.setCol, DataFrame.getCol, DataFrame.hasCol, Col.updAdd, Col.add,
      List.range_succ, -List.any_eq_true]
    try norm_num
    try simp [DataFrame.setCol, DataFrame.getCol, DataFrame.hasCol, Col.updAdd, Col.add,
      List.range_succ, -List.any_eq_true]
    try norm_num
    try simp [DataFrame.setCol, DataFrame.getCol, DataFrame.hasCol, Col.updAdd, Col.add,
      List.range_succ, -List.any_eq_true]
    try norm_num
    try simp [DataFrame.setCol, DataFrame.getCol, DataFrame.hasCol, Col.updAdd, Col.add,
      List.range_succ, -List.any_eq_true]
    try norm_num
    try simp [DataFrame.setCol, DataFrame.getCol, DataFrame.hasCol, Col.updAdd, Col.add,
      List.range_succ, -List.any_eq_true]
    try norm_num
    try simp [DataFrame.setCol, DataFrame.getCol, DataFrame.hasCol, Col.updAdd, Col.add,
      List.range_succ, -List.any_eq_true]
    try norm_num

  have hd1 : deployment_scripts.decomPass ⟨9, [("Year", [2016, 2017, 2018, 2019, 2020, 2021, 2022, 2023, 2024]), ("test_cap", [20, 79, 80, 81, 220, 640, 693, 950, 700]), ("num_ReactorBig", [0, 0, 1, 1, 2, 8, 8, 11, 9]), ("num_ReactorMedium", [1, 3, 0, 0, 3, 0, 2, 3, 3]), ("num_ReactorSmall", [0, 3, 0, 0, 0, 0, 2, 2, 0]), ("ReactorBigDecom", [0, 0, 0, 0, 0, 0, 0, 0, 1])]⟩ ("ReactorMedium", ⟨20, 1, 4⟩) = ⟨9, [("Year", [2016, 2017, 2018, 2019, 2020, 2021, 2022, 2023, 2024]), ("test_cap", [20, 79, 80, 81, 220, 640, 693, 950, 700]), ("num_ReactorBig", [0, 0, 1, 1, 2, 8, 8, 11, 9]), ("num_ReactorMedium", [1, 3, 0, 0, 4, 3, 2, 3, 7]), ("num_ReactorSmall", [0, 3, 0, 0, 0, 0, 2, 2, 0]), ("ReactorBigDecom", [0, 0, 0, 0, 0, 0, 0, 0, 1]), ("ReactorMediumDecom", [0, 0, 0, 0, 1, 3, 0, 0, 4])]⟩ := by
    try simp [deployment_scripts.decomPass, deployment_scripts.decomFrameStep, DataFrame.setCol, DataFrame.getCol,
      DataFrame.hasCol, DataFrame.len, Col.updAdd, Col.add, List.range_succ, -List.any_eq_true]
    try norm_num
    try simp [DataFrame.setCol, DataFrame.getCol, DataFrame.hasCol, Col.updAdd, Col.add,
      List.range_succ, -List.any_eq_true]
    try norm_num
    try simp [DataFrame.setCol, DataFrame.getCol, DataFrame.hasCol, Col.updAdd, Col.add,
      List.range_succ, -List.any_eq_true]
    try norm_num
    try simp [DataFrame.setCol, DataFrame.getCol, DataFrame.hasCol, Col.updAdd, Col.add,
      List.range_succ, -List.any_eq_true]
    try norm_num
    try simp [DataFrame.setCol, DataFrame.getCol, DataFrame.hasCol, Col.updAdd, Col.add,
      List.range_succ, -List.any_eq_true]
    try norm_num
    try simp [DataFrame.setCol, DataFrame.getCol, DataFrame.hasCol, Col.updAdd, Col.add,
      List.range_succ, -List.any_eq_true]
    try norm_num
    try simp [DataFrame.setCol, DataFrame.getCol, DataFrame.hasCol, Col.updAdd, Col.add,
      List.range_succ, -List.any_eq_true]
    try norm_num

  have hd2 : deployment_scripts.decomPass ⟨9, [("Year", [2016, 2017, 2018, 2019, 2020, 2021, 2022, 2023, 2024]), ("test_cap", [20, 79, 80, 81, 220, 640, 693, 950, 700]), ("num_ReactorBig", [0, 0, 1, 1, 2, 8, 8, 11, 9]), ("num_ReactorMedium", [1, 3, 0, 0, 4, 3, 2, 3, 7]), ("num_ReactorSmall", [0, 3, 0, 0, 0, 0, 2, 2, 0]), ("ReactorBigDecom", [0, 0, 0, 0, 0, 0, 0, 0, 1]), ("ReactorMediumDecom", [0, 0, 0, 0, 1, 3, 0, 0, 4])]⟩ ("ReactorSmall", ⟨5, 1, 2⟩) = ⟨9, [("Year", [2016, 2017, 2018, 2019, 2020, 2021, 2022, 2023, 2024]), ("test_cap", [20, 79, 80, 81, 220, 640, 693, 950, 700]), ("num_ReactorBig", [0, 0, 1, 1, 2, 8, 8, 11, 9]), ("num_ReactorMedium", [1, 3, 0, 0, 4, 3, 2, 3, 7]), ("num_ReactorSmall", [0, 3, 0, 3, 0, 3, 2, 5, 2]), ("ReactorBigDecom", [0, 0, 0, 0, 0, 0, 0, 0, 1]), ("ReactorMediumDecom", [0, 0, 0, 0, 1, 3, 0, 0, 4]), ("ReactorSmallDecom", [0, 0, 0, 3, 0, 3, 0, 3, 2])]⟩ := by
    try simp [deployment_scripts.decomPass, deployment_scripts.decomFrameStep, DataFrame.setCol, DataFrame.getCol,
      DataFrame.hasCol, DataFrame.len, Col.updAdd, Col.add, List.range_succ, -List.any_eq_true]
    try norm_num
    try simp [DataFrame.setCol, DataFrame.getCol, DataFrame.hasCol, Col.updAdd, Col.add,
      List.range_succ, -List.any_eq_true]
    try norm_num
    try simp [DataFrame.setCol, DataFrame.getCol, DataFrame.hasCol, Col.updAdd, Col.add,
      List.range_succ, -List.any_eq_true]
    try norm_num
    try simp [DataFrame.setCol, DataFrame.getCol, DataFrame.hasCol, Col.updAdd, Col.add,
      List.range_succ, -List.any_eq_true]
    try norm_num
    try simp [DataFrame.setCol, DataFrame.getCol, DataFrame.hasCol, Col.updAdd, Col.add,
      List.range_succ, -List.any_eq_true]
    try norm_num
    try simp [DataFrame.setCol, DataFrame.getCol, DataFrame.hasCol, Col.updAdd, Col.add,
      List.range_succ, -List.any_eq_true]
    try norm_num
    try simp [DataFrame.setCol, DataFrame.getCol, DataFrame.hasCol, Col.updAdd, Col.add,
      List.range_succ, -List.any_eq_true]
    try norm_num

  have hnr : deployment_script.num_react_to_cap ⟨9, [("Year", [2016, 2017, 2018, 2019, 2020, 2021, 2022, 2023, 2024]), ("test_cap", [20, 79, 80, 81, 220, 640, 693, 950, 700]), ("num_ReactorBig", [0, 0, 1, 1, 2, 8, 8, 11, 9]), ("num_ReactorMedium", [1, 3, 0, 0, 4, 3, 2, 3, 7]), ("num_ReactorSmall", [0, 3, 0, 3, 0, 3, 2, 5, 2]), ("ReactorBigDecom", [0, 0, 0, 0, 0, 0, 0, 0, 1]), ("ReactorMediumDecom", [0, 0, 0, 0, 1, 3, 0, 0, 4]), ("ReactorSmallDecom", [0, 0, 0, 3, 0, 3, 0, 3, 2])]⟩ arC3 = ⟨9, [("Year", [2016, 2017, 2018, 2019, 2020, 2021, 2022, 2023, 2024]), ("test_cap", [20, 79, 80, 81, 220, 640, 693, 950, 700]), ("num_ReactorBig", [0, 0, 1, 1, 2, 8, 8, 11, 9]), ("num_ReactorMedium", [1, 3, 0, 0, 4, 3, 2, 3, 7]), ("num_ReactorSmall", [0, 3, 0, 3, 0, 3, 2, 5, 2]), ("ReactorBigDecom", [0, 0, 0, 0, 0, 0, 0, 0, 1]), ("ReactorMediumDecom", [0, 0, 0, 0, 1, 3, 0, 0, 4]), ("ReactorSmallDecom", [0, 0, 0, 3, 0, 3, 0, 3, 2]), ("total_cap", [20, 75, 80, 95, 240, 715, 690, 965, 870]), ("new_cap", [20, 75, 80, 80, 220, 640, 690, 950, 700]), ("new_ReactorBig_cap", [0, 0, 80, 80, 160, 640, 640, 880, 640]), ("ReactorBig_cap", [0, 0, 80, 80, 160, 640, 640, 880, 720]), ("new_ReactorMedium_cap", [20, 60, 0, 0, 60, 0, 40, 60, 60]), ("ReactorMedium_cap", [20, 60, 0, 0, 80, 60, 40, 60, 140]), ("new_ReactorSmall_cap", [0, 15, 0, 0, 0, 0, 10, 10, 0]), ("ReactorSmall_cap", [0, 15, 0, 15, 0, 15, 10, 25, 10])]⟩ := by
    try simp [deployment_script.num_react_to_cap, arC3, DataFrame.setCol, DataFrame.getCol,
      DataFrame.hasCol, DataFrame.len, Col.updAdd, Col.add, List.range_succ, -List.any_eq_true]
    try norm_num
    try simp [DataFrame.setCol, DataFrame.getCol, DataFrame.hasCol, Col.updAdd, Col.add,
      List.range_succ, -List.any_eq_true]
    try norm_num
    try simp [DataFrame.setCol, DataFrame.getCol, DataFrame.hasCol, Col.updAdd, Col.add,
      List.range_succ, -List.any_eq_true]
    try norm_num
    try simp [DataFrame.setCol, DataFrame.getCol, DataFrame.hasCol, Col.updAdd, Col.add,
      List.range_succ, -List.any_eq_true]
    try norm_num
    try simp [DataFrame.setCol, DataFrame.getCol, DataFrame.hasCol, Col.updAdd, Col.add,
      List.range_succ, -List.any_eq_true]
    try norm_num
    try simp [DataFrame.setCol, DataFrame.getCol, DataFrame.hasCol, Col.updAdd, Col.add,
      List.range_succ, -List.any_eq_true]
    try norm_num
    try simp [DataFrame.setCol, DataFrame.getCol, DataFrame.hasCol, Col.updAdd, Col.add,
      List.range_succ, -List.any_eq_true]
    try norm_num

  have hfin : deployment_script.greedy_deployment dfC3 "test_cap" arC3 = ⟨9, [("Year", [2016, 2017, 2018, 2019, 2020, 2021, 2022, 2023, 2024]), ("test_cap", [20, 79, 80, 81, 220, 640, 693, 950, 700]), ("num_ReactorBig", [0, 0, 1, 1, 2, 8, 8, 11, 9]), ("num_ReactorMedium", [1, 3, 0, 0, 4, 3, 2, 3, 7]), ("num_ReactorSmall", [0, 3, 0, 3, 0, 3, 2, 5, 2]), ("ReactorBigDecom", [0, 0, 0, 0, 0, 0, 0, 0, 1]), ("ReactorMediumDecom", [0, 0, 0, 0, 1, 3, 0, 0, 4]), ("ReactorSmallDecom", [0, 0, 0, 3, 0, 3, 0, 3, 2]), ("total_cap", [20, 75, 80, 95, 240, 715, 690, 965, 870]), ("new_cap", [20, 75, 80, 80, 220, 640, 690, 950, 700]), ("new_ReactorBig_cap", [0, 0, 80, 80, 160, 640, 640, 880, 640]), ("ReactorBig_cap", [0, 0, 80, 80, 160, 640, 640, 880, 720]), ("new_ReactorMedium_cap", [20, 60, 0, 0, 60, 0, 40, 60, 60]), ("ReactorMedium_cap", [20, 60, 0, 0, 80, 60, 40, 60, 140]), ("new_ReactorSmall_cap", [0, 15, 0, 0, 0, 0, 10, 10, 0]), ("ReactorSmall_cap", [0, 15, 0, 15, 0, 15, 10, 25, 10])]⟩ := by
    unfold deployment_script.greedy_deployment
    rw [hinit]
    try simp [DataFrame.getCol, List.range_succ, -List.any_eq_true]
    try norm_num
    try simp only [List.range_succ, List.range_zero, List.foldl_append, List.foldl_cons,
      List.foldl_nil, List.nil_append]
    rw [hg0, hg1, hg2, hg3, hg4, hg5, hg6, hg7, hg8]
    unfold deployment_script.direct_decom deployment_scripts.direct_decom
    try simp only [arC3, List.foldl_cons, List.foldl_nil]
    rw [hd0, hd1, hd2]
    exact hnr
  refine ⟨?_, ?_, ?_⟩ <;> rw [hfin] <;> simp [DataFrame.getCol, -List.any_eq_true]

private theorem getD_map_mul (l : Col ℚ) (a : ℚ) (t : ℕ) :
    (l.map (fun x => x * a)).getD t 0 = l.getD t 0 * a := by
  by_cases ht : t < l.length
  · simp [List.getD, List.getElem?_map, List.getElem?_eq_getElem ht]
  · have h1 : l.length ≤ t := Nat.le_of_not_lt ht
    rw [List.getD_eq_default, List.getD_eq_default, zero_mul]
    · exact h1
    · simpa using h1

namespace deployment_scripts

private theorem nrtc_loop (ar : ArDict) (g : DataFrame ℚ) (n : ℕ)
    (hn1 : ∀ p ∈ ar, p.1 ++ "_cap" ≠ "total_cap")
    (hn2 : ∀ p ∈ ar, ∀ q ∈ ar, "num_" ++ p.1 ≠ q.1 ++ "_cap")
    (hn3 : ∀ p ∈ ar, "num_" ++ p.1 ≠ "total_cap")
    (hnodup : (ar.map (fun p => p.1 ++ "_cap")).Nodup)
    (hlen : ∀ p ∈ ar, (g.getCol ("num_" ++ p.1)).length = n)
    (hlent : (g.getCol "total_cap").length = n) :
    (∀ c, (∀ p ∈ ar, c ≠ p.1 ++ "_cap") → c ≠ "total_cap" →
      (ar.foldl (fun df p =>
        let df := df.setCol (p.1 ++ "_cap")
          ((df.getCol ("num_" ++ p.1)).map (fun x => x * p.2.power))
        df.setCol "total_cap"
          (Col.add (df.getCol "total_cap") (df.getCol (p.1 ++ "_cap")))) g).getCol c =
        g.getCol c) ∧
    (∀ p ∈ ar,
      (ar.foldl (fun df p =>
        let df := df.setCol (p.1 ++ "_cap")
          ((df.getCol ("num_" ++ p.1)).map (fun x => x * p.2.power))
        df.setCol "total_cap"
          (Col.add (df.getCol "total_cap") (df.getCol (p.1 ++ "_cap")))) g).getCol
          (p.1 ++ "_cap") =
        (g.getCol ("num_" ++ p.1)).map (fun x => x * p.2.power)) ∧
    (∀ t : ℕ,
      ((ar.foldl (fun df p =>
        let df := df.setCol (p.1 ++ "_cap")
          ((df.getCol ("num_" ++ p.1)).map (fun x => x * p.2.power))
        df.setCol "total_cap"
          (Col.add (df.getCol "total_cap") (df.getCol (p.1 ++ "_cap")))) g).getCol
          "total_cap").getD t 0 =
        (g.getCol "total_cap").getD t 0 +
          (ar.map (fun p => (g.getCol ("num_" ++ p.1)).getD t 0 * p.2.power)).sum) ∧
    ((ar.foldl (fun df p =>
        let df := df.setCol (p.1 ++ "_cap")
          ((df.getCol ("num_" ++ p.1)).map (fun x => x * p.2.power))
        df.setCol "total_cap"
          (Col.add (df.getCol "total_cap") (df.getCol (p.1 ++ "_cap")))) g).getCol
        "total_cap").length = n ∧
    (g.hasCol "total_cap" = true →
      ((ar.foldl (fun df p =>
        let df := df.setCol (p.1 ++ "_cap")
          ((df.getCol ("num_" ++ p.1)).map (fun x => x * p.2.power))
        df.setCol "total_cap"
          (Col.add (df.getCol "total_cap") (df.getCol (p.1 ++ "_cap")))) g).hasCol
        "total_cap") = true) := by
  induction ar generalizing g with
  | nil =>
    refine ⟨fun c _ _ => rfl, fun p hp => absurd hp (List.not_mem_nil p), ?_, hlent, fun h => h⟩
    intro t
    simp
  | cons p t ih =>
    have hpmem : p ∈ p :: t := List.mem_cons_self p t
    set cap1 := (g.getCol ("num_" ++ p.1)).map (fun x => x * p.2.power) with hcap1
    set g1 := (g.setCol (p.1 ++ "_cap") cap1).setCol "total_cap"
      (Col.add ((g.setCol (p.1 ++ "_cap") cap1).getCol "total_cap")
        ((g.setCol (p.1 ++ "_cap") cap1).getCol (p.1 ++ "_cap"))) with hg1
    have hga : (g.setCol (p.1 ++ "_cap") cap1).getCol (p.1 ++ "_cap") = cap1 :=
      DataFrame.getCol_setCol_self g _ cap1
    have hgt : (g.setCol (p.1 ++ "_cap") cap1).getCol "total_cap" = g.getCol "total_cap" :=
      DataFrame.getCol_setCol_ne g _ _ cap1 (Ne.symm (hn1 p hpmem))
    have hg1t : g1.getCol "total_cap" = Col.add (g.getCol "total_cap") cap1 := by
      rw [hg1, DataFrame.getCol_setCol_self, hgt, hga]
    have hg1cap : g1.getCol (p.1 ++ "_cap") = cap1 := by
      rw [hg1, DataFrame.getCol_setCol_ne _ _ _ _ (hn1 p hpmem), hga]
    have hg1other : ∀ c, c ≠ p.1 ++ "_cap" → c ≠ "total_cap" → g1.getCol c = g.getCol c := by
      intro c hc1 hc2
      rw [hg1, DataFrame.getCol_setCol_ne _ _ _ _ hc2, DataFrame.getCol_setCol_ne _ _ _ _ hc1]
    have hg1num : ∀ q, q ∈ p :: t → g1.getCol ("num_" ++ q.1) = g.getCol ("num_" ++ q.1) :=
      fun q hq => hg1other _ (hn2 q hq p hpmem) (hn3 q hq)
    have hlen1 : ∀ q ∈ t, (g1.getCol ("num_" ++ q.1)).length = n := by
      intro q hq
      rw [hg1num q (List.mem_cons_of_mem p hq)]
      exact hlen q (List.mem_cons_of_mem p hq)
    have hlent1 : (g1.getCol "total_cap").length = n := by
      rw [hg1t, Col.length_add, hlent, hcap1, List.length_map, hlen p hpmem]
      exact Nat.min_self n
    have hcaplen : cap1.length = n := by
      rw [hcap1, List.length_map]
      exact hlen p hpmem
    obtain ⟨ihframe, ihcap, ihtot, ihlen, ihhas⟩ := ih g1
      (fun q hq => hn1 q (List.mem_cons_of_mem p hq))
      (fun q hq r hr => hn2 q (List.mem_cons_of_mem p hq) r (List.mem_cons_of_mem p hr))
      (fun q hq => hn3 q (List.mem_cons_of_mem p hq))
      (by simpa using hnodup.of_cons) hlen1 hlent1
    have hfold : ∀ c : String,
        ((p :: t).foldl (fun df p =>
          let df := df.setCol (p.1 ++ "_cap")
            ((df.getCol ("num_" ++ p.1)).map (fun x => x * p.2.power))
          df.setCol "total_cap"
            (Col.add (df.getCol "total_cap") (df.getCol (p.1 ++ "_cap")))) g).getCol c =
        (t.foldl (fun df p =>
          let df := df.setCol (p.1 ++ "_cap")
            ((df.getCol ("num_" ++ p.1)).map (fun x => x * p.2.power))
          df.setCol "total_cap"
            (Col.add (df.getCol "total_cap") (df.getCol (p.1 ++ "_cap")))) g1).getCol c :=
      fun c => rfl
    have hpcapne : ∀ q ∈ t, p.1 ++ "_cap" ≠ q.1 ++ "_cap" := by
      intro q hq heq
      have := hnodup
      rw [List.map_cons, List.nodup_cons] at this
      exact this.1 (heq ▸ List.mem_map_of_mem (fun r => r.1 ++ "_cap") hq)
    refine ⟨?_, ?_, ?_, ?_, ?_⟩
    · intro c hc1 hc2
      rw [hfold c, ihframe c (fun q hq => hc1 q (List.mem_cons_of_mem p hq)) hc2]
      exact hg1other c (hc1 p hpmem) hc2
    · intro q hq
      rcases List.mem_cons.mp hq with hq1 | hq2
      · subst hq1
        rw [hfold, ihframe (q.1 ++ "_cap") (fun r hr => hpcapne r hr) (hn1 q hpmem), hg1cap]
      · rw [hfold, ihcap q hq2, hg1num q (List.mem_cons_of_mem p hq2)]
    · intro s
      rw [hfold, ihtot s, hg1t,
        Col.getD_add _ _ (by rw [hlent, hcaplen]) s, hcap1, getD_map_mul]
      have : ∀ q ∈ t, g1.getCol ("num_" ++ q.1) = g.getCol ("num_" ++ q.1) :=
        fun q hq => hg1num q (List.mem_cons_of_mem p hq)
      have hmapeq : t.map (fun q => (g1.getCol ("num_" ++ q.1)).getD s 0 * q.2.power) =
          t.map (fun q => (g.getCol ("num_" ++ q.1)).getD s 0 * q.2.power) :=
        List.map_congr_left (fun q hq => by rw [this q hq])
      rw [hmapeq, List.map_cons, List.sum_cons]
      ring
    · rw [show ((p :: t).foldl (fun df p =>
          let df := df.setCol (p.1 ++ "_cap")
            ((df.getCol ("num_" ++ p.1)).map (fun x => x * p.2.power))
          df.setCol "total_cap"
            (Col.add (df.getCol "total_cap") (df.getCol (p.1 ++ "_cap")))) g) =
          (t.foldl (fun df p =>
          let df := df.setCol (p.1 ++ "_cap")
            ((df.getCol ("num_" ++ p.1)).map (fun x => x * p.2.power))
          df.setCol "total_cap"
            (Col.add (df.getCol "total_cap") (df.getCol (p.1 ++ "_cap")))) g1) from rfl]
      exact ihlen
    · rw [show ((p :: t).foldl (fun df p =>
          let df := df.setCol (p.1 ++ "_cap")
            ((df.getCol ("num_" ++ p.1)).map (fun x => x * p.2.power))
          df.setCol "total_cap"
            (Col.add (df.getCol "total_cap") (df.getCol (p.1 ++ "_cap")))) g) =
          (t.foldl (fun df p =>
          let df := df.setCol (p.1 ++ "_cap")
            ((df.getCol ("num_" ++ p.1)).map (fun x => x * p.2.power))
          df.setCol "total_cap"
            (Col.add (df.getCol "total_cap") (df.getCol (p.1 ++ "_cap")))) g1) from rfl]
      intro _
      apply ihhas
      rw [hg1]
      exact DataFrame.hasCol_setCol_self _ _ _

private theorem nrtc_eq_fresh (df : DataFrame ℚ) (ar : ArDict)
    (h : df.hasCol "total_cap" = false) :
    num_react_to_cap df ar = ar.foldl (fun df p =>
      let df := df.setCol (p.1 ++ "_cap")
        ((df.getCol ("num_" ++ p.1)).map (fun x => x * p.2.power))
      df.setCol "total_cap"
        (Col.add (df.getCol "total_cap") (df.getCol (p.1 ++ "_cap"))))
      (df.setCol "total_cap" (List.replicate df.len 0)) := by
  unfold num_react_to_cap
  rw [if_neg (by rw [h]; exact Bool.false_ne_true)]

private theorem nrtc_eq_existing (df : DataFrame ℚ) (ar : ArDict)
    (h : df.hasCol "total_cap" = true) :
    num_react_to_cap df ar = ar.foldl (fun df p =>
      let df := df.setCol (p.1 ++ "_cap")
        ((df.getCol ("num_" ++ p.1)).map (fun x => x * p.2.power))
      df.setCol "total_cap"
        (Col.add (df.getCol "total_cap") (df.getCol (p.1 ++ "_cap")))) df := by
  unfold num_react_to_cap
  rw [if_pos h]

end deployment_scripts

/-- C1 (amended): after `num_react_to_cap` on a ledger without a pre-existing
    `total_cap` column, every per-type capacity column equals the count column
    times the reactor's power alone — the capacity factor stored at index 1 of
    the reactor record is not read by the code — and `total_cap` is the
    pointwise sum over all types of those per-type capacities.  The name
    hypotheses keep the dynamically-built column names from colliding and the
    length hypotheses give every count column the ledger's row count `n`. -/
theorem C1_capacity_accounting (df : DataFrame ℚ) (ar : ArDict) (n : ℕ)
    (hfresh : df.hasCol "total_cap" = false) (hn : df.len = n)
    (hn1 : ∀ p ∈ ar, p.1 ++ "_cap" ≠ "total_cap")
    (hn2 : ∀ p ∈ ar, ∀ q ∈ ar, "num_" ++ p.1 ≠ q.1 ++ "_cap")
    (hn3 : ∀ p ∈ ar, "num_" ++ p.1 ≠ "total_cap")
    (hnodup : (ar.map (fun p => p.1 ++ "_cap")).Nodup)
    (hlen : ∀ p ∈ ar, (df.getCol ("num_" ++ p.1)).length = n) :
    (∀ p ∈ ar, (deployment_scripts.num_react_to_cap df ar).getCol (p.1 ++ "_cap") =
      (df.getCol ("num_" ++ p.1)).map (fun x => x * p.2.power)) ∧
    (∀ t : ℕ,
      ((deployment_scripts.num_react_to_cap df ar).getCol "total_cap").getD t 0 =
      (ar.map (fun p => (df.getCol ("num_" ++ p.1)).getD t 0 * p.2.power)).sum) := by
  have hb := deployment_scripts.nrtc_eq_fresh df ar hfresh
  have hnum0 : ∀ p ∈ ar,
      (df.setCol "total_cap" (List.replicate df.len 0)).getCol ("num_" ++ p.1) =
      df.getCol ("num_" ++ p.1) :=
    fun p hp => DataFrame.getCol_setCol_ne df _ _ _ (hn3 p hp)
  have hn2' : df.nrows = n := hn
  have htot0 : (df.setCol "total_cap" (List.replicate df.len 0)).getCol "total_cap" =
      List.replicate n 0 := by
    rw [DataFrame.getCol_setCol_self, DataFrame.len, hn2']
  obtain ⟨lframe, lcap, ltot, llen, lhas⟩ := deployment_scripts.nrtc_loop ar
    (df.setCol "total_cap" (List.replicate df.len 0)) n hn1 hn2 hn3 hnodup
    (fun p hp => by rw [hnum0 p hp]; exact hlen p hp)
    (by rw [htot0]; exact List.length_replicate n 0)
  constructor
  · intro p hp
    rw [hb, lcap p hp, hnum0 p hp]
  · intro t
    rw [hb, ltot t, htot0, Cask_Calcs.getD_replicate_zero, zero_add]
    exact congrArg List.sum (List.map_congr_left (fun p hp => by rw [hnum0 p hp]))

private theorem C1eval_run1 : deployment_scripts.num_react_to_cap dfC1 arC1 =
    ⟨1, [("Year", [0]), ("num_R", [1]), ("total_cap", [10]), ("R_cap", [10])]⟩ := by
  try simp [deployment_scripts.num_react_to_cap, dfC1, arC1, DataFrame.setCol,
    DataFrame.getCol, DataFrame.hasCol, DataFrame.len, Col.add, -List.any_eq_true]
  try norm_num
  try simp [DataFrame.setCol, DataFrame.getCol, DataFrame.hasCol, Col.add, -List.any_eq_true]
  try norm_num
  try simp [DataFrame.setCol, DataFrame.getCol, DataFrame.hasCol, Col.add, -List.any_eq_true]
  try norm_num

/-- Counterexample to C1 as stated: the per-type capacity column written by
    num_react_to_cap holds count * power = 10, not
    count * power * capacity_factor = 5: the capacity factor is ignored. -/
theorem C1_counterexample :
    (deployment_scripts.num_react_to_cap dfC1 arC1).getCol "R_cap" = [10] ∧
    ¬((deployment_scripts.num_react_to_cap dfC1 arC1).getCol "R_cap" =
      [1 * 10 * (1/2 : ℚ)]) := by
  have h : (deployment_scripts.num_react_to_cap dfC1 arC1).getCol "R_cap" = [10] := by
    rw [C1eval_run1]
    simp [DataFrame.getCol, -List.any_eq_true]
  refine ⟨h, ?_⟩
  rw [h]
  intro hx
  have : (10 : ℚ) = 1 * 10 * (1/2) := List.head_eq_of_cons_eq hx
  norm_num at this

/-- Witness applying C1_capacity_accounting at the concrete one-reactor
    ledger. -/
theorem C1_capacity_accounting_witness :
    dfC1.hasCol "total_cap" = false ∧ dfC1.len = 1 ∧
    (∀ p ∈ arC1, p.1 ++ "_cap" ≠ "total_cap") ∧
    (∀ p ∈ arC1, ∀ q ∈ arC1, "num_" ++ p.1 ≠ q.1 ++ "_cap") ∧
    (∀ p ∈ arC1, "num_" ++ p.1 ≠ "total_cap") ∧
    (arC1.map (fun p => p.1 ++ "_cap")).Nodup ∧
    (∀ p ∈ arC1, (dfC1.getCol ("num_" ++ p.1)).length = 1) ∧
    ((∀ p ∈ arC1, (deployment_scripts.num_react_to_cap dfC1 arC1).getCol (p.1 ++ "_cap") =
        (dfC1.getCol ("num_" ++ p.1)).map (fun x => x * p.2.power)) ∧
      (∀ t : ℕ,
        ((deployment_scripts.num_react_to_cap dfC1 arC1).getCol "total_cap").getD t 0 =
        (arC1.map (fun p => (dfC1.getCol ("num_" ++ p.1)).getD t 0 * p.2.power)).sum)) :=
  ⟨by decide, by decide, by decide, by decide, by decide, by decide, by decide,
    C1_capacity_accounting dfC1 arC1 1 (by decide) (by decide) (by decide) (by decide)
      (by decide) (by decide) (by decide)⟩

/-- C4 (amended): num_react_to_cap is not idempotent.  A second application
    leaves every column other than total_cap unchanged (the per-type capacity
    columns are recomputed to the same values), but adds the per-type
    capacity sum onto total_cap once more. -/
theorem C4_second_run (df : DataFrame ℚ) (ar : ArDict) (n : ℕ)
    (hfresh : df.hasCol "total_cap" = false) (hn : df.len = n)
    (hn1 : ∀ p ∈ ar, p.1 ++ "_cap" ≠ "total_cap")
    (hn2 : ∀ p ∈ ar, ∀ q ∈ ar, "num_" ++ p.1 ≠ q.1 ++ "_cap")
    (hn3 : ∀ p ∈ ar, "num_" ++ p.1 ≠ "total_cap")
    (hnodup : (ar.map (fun p => p.1 ++ "_cap")).Nodup)
    (hlen : ∀ p ∈ ar, (df.getCol ("num_" ++ p.1)).length = n) :
    (∀ c, c ≠ "total_cap" →
      (deployment_scripts.num_react_to_cap
        (deployment_scripts.num_react_to_cap df ar) ar).getCol c =
      (deployment_scripts.num_react_to_cap df ar).getCol c) ∧
    (∀ t : ℕ,
      ((deployment_scripts.num_react_to_cap
        (deployment_scripts.num_react_to_cap df ar) ar).getCol "total_cap").getD t 0 =
      ((deployment_scripts.num_react_to_cap df ar).getCol "total_cap").getD t 0 +
        (ar.map (fun p => (df.getCol ("num_" ++ p.1)).getD t 0 * p.2.power)).sum) := by
  have hb1 := deployment_scripts.nrtc_eq_fresh df ar hfresh
  have hnum0 : ∀ p ∈ ar,
      (df.setCol "total_cap" (List.replicate df.len 0)).getCol ("num_" ++ p.1) =
      df.getCol ("num_" ++ p.1) :=
    fun p hp => DataFrame.getCol_setCol_ne df _ _ _ (hn3 p hp)
  obtain ⟨lframe1, lcap1, ltot1, llen1, lhas1⟩ := deployment_scripts.nrtc_loop ar
    (df.setCol "total_cap" (List.replicate df.len 0)) n hn1 hn2 hn3 hnodup
    (fun p hp => by rw [hnum0 p hp]; exact hlen p hp)
    (by have hn2' : df.nrows = n := hn
        rw [DataFrame.getCol_setCol_self, DataFrame.len, hn2']
        exact List.length_replicate n 0)
  have hout1num : ∀ p ∈ ar,
      (deployment_scripts.num_react_to_cap df ar).getCol ("num_" ++ p.1) =
      df.getCol ("num_" ++ p.1) := by
    intro p hp
    rw [hb1, lframe1 _ (fun q hq => hn2 p hp q hq) (hn3 p hp), hnum0 p hp]
  have hout1has : (deployment_scripts.num_react_to_cap df ar).hasCol "total_cap" = true := by
    rw [hb1]
    exact lhas1 (DataFrame.hasCol_setCol_self df _ _)
  have hout1len :
      ((deployment_scripts.num_react_to_cap df ar).getCol "total_cap").length = n := by
    rw [hb1]
    exact llen1
  have hb2 := deployment_scripts.nrtc_eq_existing
    (deployment_scripts.num_react_to_cap df ar) ar hout1has
  obtain ⟨lframe2, lcap2, ltot2, llen2, lhas2⟩ := deployment_scripts.nrtc_loop ar
    (deployment_scripts.num_react_to_cap df ar) n hn1 hn2 hn3 hnodup
    (fun p hp => by rw [hout1num p hp]; exact hlen p hp) hout1len
  constructor
  · intro c hc
    by_cases hcap : ∃ p, p ∈ ar ∧ c = p.1 ++ "_cap"
    · obtain ⟨p, hp, rfl⟩ := hcap
      rw [hb2, lcap2 p hp, hout1num p hp, ← hnum0 p hp, ← lcap1 p hp, ← hb1]
    · push_neg at hcap
      rw [hb2, lframe2 c (fun p hp => hcap p hp) hc]
  · intro t
    rw [hb2, ltot2 t]
    exact congrArg (_ + ·)
      (congrArg List.sum (List.map_congr_left (fun p hp => by rw [hout1num p hp])))

private theorem C4eval_run2 : deployment_scripts.num_react_to_cap
    ⟨1, [("Year", [0]), ("num_R", [1]), ("total_cap", [10]), ("R_cap", [10])]⟩ arC1 =
    ⟨1, [("Year", [0]), ("num_R", [1]), ("total_cap", [20]), ("R_cap", [10])]⟩ := by
  try simp [deployment_scripts.num_react_to_cap, arC1, DataFrame.setCol,
    DataFrame.getCol, DataFrame.hasCol, DataFrame.len, Col.add, -List.any_eq_true]
  try norm_num
  try simp [DataFrame.setCol, DataFrame.getCol, DataFrame.hasCol, Col.add, -List.any_eq_true]
  try norm_num
  try simp [DataFrame.setCol, DataFrame.getCol, DataFrame.hasCol, Col.add, -List.any_eq_true]
  try norm_num

/-- Counterexample to C4 as stated: a second application of num_react_to_cap
    changes the ledger, doubling total_cap from [10] to [20]. -/
theorem C4_counterexample :
    ((deployment_scripts.num_react_to_cap
      (deployment_scripts.num_react_to_cap dfC1 arC1) arC1).getCol "total_cap" = [20]) ∧
    ((deployment_scripts.num_react_to_cap dfC1 arC1).getCol "total_cap" = [10]) ∧
    ¬(deployment_scripts.num_react_to_cap
      (deployment_scripts.num_react_to_cap dfC1 arC1) arC1 =
      deployment_scripts.num_react_to_cap dfC1 arC1) := by
  have h2 : (deployment_scripts.num_react_to_cap
      (deployment_scripts.num_react_to_cap dfC1 arC1) arC1).getCol "total_cap" = [20] := by
    rw [C1eval_run1, C4eval_run2]
    simp [DataFrame.getCol, -List.any_eq_true]
  have h1 : (deployment_scripts.num_react_to_cap dfC1 arC1).getCol "total_cap" = [10] := by
    rw [C1eval_run1]
    simp [DataFrame.getCol, -List.any_eq_true]
  refine ⟨h2, h1, ?_⟩
  intro heq
  have := congrArg (fun d => d.getCol "total_cap") heq
  simp only at this
  rw [h2, h1] at this
  have h20 : (20 : ℚ) = 10 := List.head_eq_of_cons_eq this
  norm_num at h20

/-- Witness applying C4_second_run at the concrete one-reactor ledger. -/
theorem C4_second_run_witness :
    dfC1.hasCol "total_cap" = false ∧ dfC1.len = 1 ∧
    (∀ p ∈ arC1, p.1 ++ "_cap" ≠ "total_cap") ∧
    (∀ p ∈ arC1, ∀ q ∈ arC1, "num_" ++ p.1 ≠ q.1 ++ "_cap") ∧
    (∀ p ∈ arC1, "num_" ++ p.1 ≠ "total_cap") ∧
    (arC1.map (fun p => p.1 ++ "_cap")).Nodup ∧
    (∀ p ∈ arC1, (dfC1.getCol ("num_" ++ p.1)).length = 1) ∧
    ((∀ c, c ≠ "total_cap" →
        (deployment_scripts.num_react_to_cap
          (deployment_scripts.num_react_to_cap dfC1 arC1) arC1).getCol c =
        (deployment_scripts.num_react_to_cap dfC1 arC1).getCol c) ∧
      (∀ t : ℕ,
        ((deployment_scripts.num_react_to_cap
          (deployment_scripts.num_react_to_cap dfC1 arC1) arC1).getCol
            "total_cap").getD t 0 =
        ((deployment_scripts.num_react_to_cap dfC1 arC1).getCol "total_cap").getD t 0 +
          (arC1.map (fun p => (dfC1.getCol ("num_" ++ p.1)).getD t 0 * p.2.power)).sum)) :=
  ⟨by decide, by decide, by decide, by decide, by decide, by decide, by decide,
    C4_second_run dfC1 arC1 1 (by decide) (by decide) (by decide) (by decide)
      (by decide) (by decide) (by decide)⟩

namespace deployment_scripts

private theorem decomCols_inv (L n : ℕ) (hL : 1 ≤ L) (cnt0 : Col ℚ)
    (hlen : cnt0.length = n) :
    ∀ k, k ≤ n →
      (((List.range k).foldl (decomStep L n) (List.replicate n 0, cnt0)).1.length = n) ∧
      (((List.range k).foldl (decomStep L n) (List.replicate n 0, cnt0)).2.length = n) ∧
      (∀ t, ((List.range k).foldl (decomStep L n)
          (List.replicate n 0, cnt0)).1.getD t 0 =
        if L ≤ t ∧ t - L < k ∧ t < n then
          ((List.range k).foldl (decomStep L n)
            (List.replicate n 0, cnt0)).2.getD (t - L) 0
        else 0) ∧
      (∀ t, ((List.range k).foldl (decomStep L n)
          (List.replicate n 0, cnt0)).2.getD t 0 =
        cnt0.getD t 0 + ((List.range k).foldl (decomStep L n)
          (List.replicate n 0, cnt0)).1.getD t 0) := by
  intro k
  induction k with
  | zero =>
    intro _
    refine ⟨by simp, by simpa using hlen, ?_, ?_⟩
    · intro t
      show (List.replicate n (0:ℚ)).getD t 0 =
        if L ≤ t ∧ t - L < 0 ∧ t < n then cnt0.getD (t - L) 0 else 0
      rw [if_neg (by omega), Cask_Calcs.getD_replicate_zero]
    · intro t
      show cnt0.getD t 0 = cnt0.getD t 0 + (List.replicate n (0:ℚ)).getD t 0
      rw [Cask_Calcs.getD_replicate_zero, add_zero]
  | succ k ih =>
    intro hk1
    have hkn : k < n := hk1
    obtain ⟨hl1, hl2, hd, hc⟩ := ih (Nat.le_of_succ_le hk1)
    rw [List.range_succ, List.foldl_append, List.foldl_cons, List.foldl_nil]
    set acc := (List.range k).foldl (decomStep L n) (List.replicate n 0, cnt0) with hacc
    by_cases hin : n ≤ k + L
    · rw [show decomStep L n acc k = acc from by rw [decomStep, if_pos hin]]
      refine ⟨hl1, hl2, ?_, hc⟩
      intro t
      rw [hd t]
      by_cases hcond : L ≤ t ∧ t - L < k ∧ t < n
      · rw [if_pos hcond, if_pos ⟨hcond.1, by omega, hcond.2.2⟩]
      · rw [if_neg hcond, if_neg (by omega)]
    · have hlt : k + L < n := Nat.lt_of_not_le hin
      have hstep : decomStep L n acc k =
          (Col.updAdd acc.1 (k + L) (acc.2.getD k 0),
            Col.updAdd acc.2 (k + L) (acc.2.getD k 0)) := by
        rw [decomStep, if_neg hin]
      rw [hstep]
      have hne : ∀ t, t ≠ k + L →
          (Col.updAdd acc.1 (k + L) (acc.2.getD k 0)).getD t 0 = acc.1.getD t 0 :=
        fun t ht => Col.getD_updAdd_ne _ _ _ _ ht
      have hne2 : ∀ t, t ≠ k + L →
          (Col.updAdd acc.2 (k + L) (acc.2.getD k 0)).getD t 0 = acc.2.getD t 0 :=
        fun t ht => Col.getD_updAdd_ne _ _ _ _ ht
      have hself1 : (Col.updAdd acc.1 (k + L) (acc.2.getD k 0)).getD (k + L) 0 =
          acc.1.getD (k + L) 0 + acc.2.getD k 0 :=
        Col.getD_updAdd_self _ _ _ (by rw [hl1]; exact hlt)
      have hself2 : (Col.updAdd acc.2 (k + L) (acc.2.getD k 0)).getD (k + L) 0 =
          acc.2.getD (k + L) 0 + acc.2.getD k 0 :=
        Col.getD_updAdd_self _ _ _ (by rw [hl2]; exact hlt)
      refine ⟨by rw [Col.length_updAdd]; exact hl1,
        by rw [Col.length_updAdd]; exact hl2, ?_, ?_⟩
      · intro t
        by_cases ht : t = k + L
        · subst ht
          rw [hself1]
          have hdkl : acc.1.getD (k + L) 0 = 0 := by
            rw [hd (k + L), if_neg (by omega)]
          rw [hdkl, zero_add, if_pos ⟨by omega, by omega, hlt⟩]
          have : k + L - L = k := by omega
          rw [this, hne2 k (by omega)]
        · rw [hne t ht, hd t]
          by_cases hcond : L ≤ t ∧ t - L < k ∧ t < n
          · rw [if_pos hcond, if_pos ⟨hcond.1, by omega, hcond.2.2⟩,
              hne2 (t - L) (by omega)]
          · by_cases hcond2 : L ≤ t ∧ t - L < k + 1 ∧ t < n
            · exfalso
              have : t - L = k := by omega
              exact ht (by omega)
            · rw [if_neg hcond, if_neg hcond2]
      · intro t
        by_cases ht : t = k + L
        · subst ht
          rw [hself1, hself2, hc (k + L)]
          ring
        · rw [hne t ht, hne2 t ht, hc t]

private theorem decomCols_spec (L n : ℕ) (hL : 1 ≤ L) (cnt0 : Col ℚ)
    (hlen : cnt0.length = n) :
    (decomCols L n cnt0).1.length = n ∧ (decomCols L n cnt0).2.length = n ∧
    (∀ t, (decomCols L n cnt0).1.getD t 0 =
      if L ≤ t ∧ t < n then (decomCols L n cnt0).2.getD (t - L) 0 else 0) ∧
    (∀ t, (decomCols L n cnt0).2.getD t 0 =
      cnt0.getD t 0 + (decomCols L n cnt0).1.getD t 0) := by
  unfold decomCols
  obtain ⟨h1, h2, h3, h4⟩ := decomCols_inv L n hL cnt0 hlen n (le_refl n)
  refine ⟨h1, h2, ?_, h4⟩
  intro t
  rw [h3 t]
  by_cases hcond : L ≤ t ∧ t < n
  · rw [if_pos ⟨hcond.1, by omega, hcond.2⟩, if_pos hcond]
  · rw [if_neg (by omega), if_neg hcond]

private theorem decomCols_nonneg (L n : ℕ) (hL : 1 ≤ L) (cnt0 : Col ℚ)
    (hlen : cnt0.length = n) (hpos : ∀ x ∈ cnt0, 0 ≤ x) :
    ∀ t, 0 ≤ (decomCols L n cnt0).2.getD t 0 ∧ 0 ≤ (decomCols L n cnt0).1.getD t 0 := by
  obtain ⟨h1, h2, h3, h4⟩ := decomCols_spec L n hL cnt0 hlen
  have hcnt : ∀ t, 0 ≤ cnt0.getD t 0 := by
    intro t
    by_cases ht : t < cnt0.length
    · rw [List.getD_eq_getElem cnt0 0 ht]
      exact hpos _ (List.getElem_mem ht)
    · rw [List.getD_eq_default cnt0 0 (Nat.le_of_not_lt ht)]
  intro t
  induction t using Nat.strong_induction_on with
  | _ t ih =>
    have hdt : 0 ≤ (decomCols L n cnt0).1.getD t 0 := by
      rw [h3 t]
      by_cases hcond : L ≤ t ∧ t < n
      · rw [if_pos hcond]
        exact (ih (t - L) (by omega)).1
      · rw [if_neg hcond]
    exact ⟨by rw [h4 t]; exact add_nonneg (hcnt t) hdt, hdt⟩

private theorem decomCols_sum (L n : ℕ) (hL : 1 ≤ L) (cnt0 : Col ℚ)
    (hlen : cnt0.length = n) (hpos : ∀ x ∈ cnt0, 0 ≤ x) :
    (decomCols L n cnt0).1.sum ≤ (decomCols L n cnt0).2.sum := by
  obtain ⟨h1, h2, h3, _h4⟩ := decomCols_spec L n hL cnt0 hlen
  have hnn := decomCols_nonneg L n hL cnt0 hlen hpos
  have hps : ∀ k, k ≤ n →
      (∑ t in Finset.range k, (decomCols L n cnt0).1.getD t 0) =
      ∑ j in Finset.range (k - L), (decomCols L n cnt0).2.getD j 0 := by
    intro k
    induction k with
    | zero =>
      intro _
      simp
    | succ k ih =>
      intro hk1
      rw [Finset.sum_range_succ, ih (by omega), h3 k]
      by_cases hcond : L ≤ k ∧ k < n
      · rw [if_pos hcond]
        have hsub : k + 1 - L = (k - L) + 1 := by omega
        rw [hsub, Finset.sum_range_succ]
      · have hkn : k < n := by omega
        have hkL : ¬L ≤ k := fun h => hcond ⟨h, hkn⟩
        rw [if_neg hcond, add_zero]
        have hsub : k + 1 - L = k - L := by omega
        rw [hsub]
  rw [Cask_Calcs.sum_eq_getD_sum ((decomCols L n cnt0).1), h1,
    Cask_Calcs.sum_eq_getD_sum ((decomCols L n cnt0).2), h2, hps n (le_refl n)]
  apply Finset.sum_le_sum_of_subset_of_nonneg
  · exact Finset.range_subset.mpr (by omega)
  · intro j _ _
    exact (hnn j).1

private theorem decomPass_inner (p : String × ReactorSpec) (n : ℕ)
    (dfOrig : DataFrame ℚ)
    (hAB : p.1 ++ "Decom" ≠ "num_" ++ p.1)
    (hA : p.1 ++ "Decom" ≠ "Year") (hB : "num_" ++ p.1 ≠ "Year")
    (hyear : (dfOrig.getCol "Year").length = n) :
    ∀ (ys : List ℕ) (h : DataFrame ℚ) (d c : Col ℚ),
      h.getCol (p.1 ++ "Decom") = d → h.getCol ("num_" ++ p.1) = c →
      h.getCol "Year" = dfOrig.getCol "Year" →
      (∀ c', c' ≠ p.1 ++ "Decom" → c' ≠ "num_" ++ p.1 →
        h.getCol c' = dfOrig.getCol c') →
      ((ys.foldl (decomFrameStep p) h).getCol (p.1 ++ "Decom") =
        (ys.foldl (decomStep p.2.lifetime n) (d, c)).1) ∧
      ((ys.foldl (decomFrameStep p) h).getCol ("num_" ++ p.1) =
        (ys.foldl (decomStep p.2.lifetime n) (d, c)).2) ∧
      ((ys.foldl (decomFrameStep p) h).getCol "Year" = dfOrig.getCol "Year") ∧
      (∀ c', c' ≠ p.1 ++ "Decom" → c' ≠ "num_" ++ p.1 →
        (ys.foldl (decomFrameStep p) h).getCol c' = dfOrig.getCol c') := by
  intro ys
  induction ys with
  | nil =>
    intro h d c hd hc hy hother
    refine ⟨hd, hc, hy, hother⟩
  | cons y t ih =>
    intro h d c hd hc hy hother
    rw [List.foldl_cons, List.foldl_cons]
    by_cases hcond : n ≤ y + p.2.lifetime
    · have hstepf : decomFrameStep p h y = h := by
        rw [decomFrameStep, if_pos (by rw [hy, hyear]; exact hcond)]
      have hsteps : decomStep p.2.lifetime n (d, c) y = (d, c) := by
        rw [decomStep, if_pos hcond]
      rw [hstepf, hsteps]
      exact ih h d c hd hc hy hother
    · have hstepf : decomFrameStep p h y =
          (h.setCol (p.1 ++ "Decom")
            (Col.updAdd (h.getCol (p.1 ++ "Decom")) (y + p.2.lifetime)
              ((h.getCol ("num_" ++ p.1)).getD y 0))).setCol ("num_" ++ p.1)
            (Col.updAdd ((h.setCol (p.1 ++ "Decom")
              (Col.updAdd (h.getCol (p.1 ++ "Decom")) (y + p.2.lifetime)
                ((h.getCol ("num_" ++ p.1)).getD y 0))).getCol ("num_" ++ p.1))
              (y + p.2.lifetime) ((h.getCol ("num_" ++ p.1)).getD y 0)) := by
        rw [decomFrameStep, if_neg (by rw [hy, hyear]; exact hcond)]
      have hsteps : decomStep p.2.lifetime n (d, c) y =
          (Col.updAdd d (y + p.2.lifetime) (c.getD y 0),
            Col.updAdd c (y + p.2.lifetime) (c.getD y 0)) := by
        rw [decomStep, if_neg hcond]
      rw [hstepf, hsteps]
      have hBA : "num_" ++ p.1 ≠ p.1 ++ "Decom" := Ne.symm hAB
      have hgB : (h.setCol (p.1 ++ "Decom")
          (Col.updAdd (h.getCol (p.1 ++ "Decom")) (y + p.2.lifetime)
            ((h.getCol ("num_" ++ p.1)).getD y 0))).getCol ("num_" ++ p.1) =
          h.getCol ("num_" ++ p.1) :=
        DataFrame.getCol_setCol_ne _ _ _ _ hBA
    
      apply ih
      · rw [DataFrame.getCol_setCol_ne _ _ _ _ hAB, DataFrame.getCol_setCol_self, hd, hc]
      · rw [DataFrame.getCol_setCol_self, hgB, hc]
      · rw [DataFrame.getCol_setCol_ne _ _ _ _ (Ne.symm hB),
          DataFrame.getCol_setCol_ne _ _ _ _ (Ne.symm hA)]
        exact hy
      · intro c' hc1 hc2
        rw [DataFrame.getCol_setCol_ne _ _ _ _ hc2, DataFrame.getCol_setCol_ne _ _ _ _ hc1]
        exact hother c' hc1 hc2

private theorem decomPass_spec (df : DataFrame ℚ) (p : String × ReactorSpec) (n : ℕ)
    (hAB : p.1 ++ "Decom" ≠ "num_" ++ p.1)
    (hA : p.1 ++ "Decom" ≠ "Year") (hB : "num_" ++ p.1 ≠ "Year")
    (hyear : (df.getCol "Year").length = n) (hlen : df.len = n) :
    ((decomPass df p).getCol (p.1 ++ "Decom") =
      (decomCols p.2.lifetime n (df.getCol ("num_" ++ p.1))).1) ∧
    ((decomPass df p).getCol ("num_" ++ p.1) =
      (decomCols p.2.lifetime n (df.getCol ("num_" ++ p.1))).2) ∧
    (∀ c, c ≠ p.1 ++ "Decom" → c ≠ "num_" ++ p.1 →
      (decomPass df p).getCol c = df.getCol c) := by
  have hn' : df.nrows = n := hlen
  have hd1A : (df.setCol (p.1 ++ "Decom") (List.replicate df.len 0)).getCol
      (p.1 ++ "Decom") = List.replicate n 0 := by
    rw [DataFrame.getCol_setCol_self, DataFrame.len, hn']
  have hd1B : (df.setCol (p.1 ++ "Decom") (List.replicate df.len 0)).getCol
      ("num_" ++ p.1) = df.getCol ("num_" ++ p.1) :=
    DataFrame.getCol_setCol_ne _ _ _ _ (Ne.symm hAB)
  have hd1Y : (df.setCol (p.1 ++ "Decom") (List.replicate df.len 0)).getCol "Year" =
      df.getCol "Year" :=
    DataFrame.getCol_setCol_ne _ _ _ _ (Ne.symm hA)
  have hd1O : ∀ c', c' ≠ p.1 ++ "Decom" → c' ≠ "num_" ++ p.1 →
      (df.setCol (p.1 ++ "Decom") (List.replicate df.len 0)).getCol c' =
      df.getCol c' :=
    fun c' hc1 _ => DataFrame.getCol_setCol_ne _ _ _ _ hc1
  obtain ⟨hres1, hres2, _hres3, hres4⟩ := decomPass_inner p n df hAB hA hB hyear
    (List.range ((df.setCol (p.1 ++ "Decom") (List.replicate df.len 0)).getCol
      "Year").length)
    (df.setCol (p.1 ++ "Decom") (List.replicate df.len 0))
    (List.replicate n 0) (df.getCol ("num_" ++ p.1)) hd1A hd1B hd1Y hd1O
  have hrange : ((df.setCol (p.1 ++ "Decom") (List.replicate df.len 0)).getCol
      "Year").length = n := by
    rw [hd1Y, hyear]
  rw [hrange] at hres1 hres2 hres4
  have hgoal1 : decomPass df p =
      (List.range ((df.setCol (p.1 ++ "Decom")
        (List.replicate df.len 0)).getCol "Year").length).foldl (decomFrameStep p)
        (df.setCol (p.1 ++ "Decom") (List.replicate df.len 0)) := rfl
  have hgoal2 : decomCols p.2.lifetime n (df.getCol ("num_" ++ p.1)) =
      (List.range n).foldl (decomStep p.2.lifetime n)
        (List.replicate n 0, df.getCol ("num_" ++ p.1)) := rfl
  rw [hgoal1, hrange, hgoal2]
  exact ⟨hres1, hres2, hres4⟩

private theorem decomPass_preserves_col (h : DataFrame ℚ) (q : String × ReactorSpec)
    (c : String) (hc1 : c ≠ q.1 ++ "Decom") (hc2 : c ≠ "num_" ++ q.1) :
    (decomPass h q).getCol c = h.getCol c := by
  unfold decomPass
  refine DataFrame.foldl_preserves (decomFrameStep q)
    (fun g => g.getCol c = h.getCol c) _ ?_ _ ?_
  · intro g y _ hP
    rw [decomFrameStep]
    by_cases hcond : (g.getCol "Year").length ≤ y + q.2.lifetime
    · rw [if_pos hcond]
      exact hP
    · rw [if_neg hcond]
      rw [DataFrame.getCol_setCol_ne _ _ _ _ hc2, DataFrame.getCol_setCol_ne _ _ _ _ hc1]
      exact hP
  · exact DataFrame.getCol_setCol_ne _ _ _ _ hc1

private theorem decomPass_nrows (h : DataFrame ℚ) (q : String × ReactorSpec) :
    (decomPass h q).nrows = h.nrows := by
  unfold decomPass
  refine DataFrame.foldl_preserves (decomFrameStep q)
    (fun g => g.nrows = h.nrows) _ ?_ _ (DataFrame.nrows_setCol h _ _)
  intro g y _ hP
  rw [decomFrameStep]
  by_cases hcond : (g.getCol "Year").length ≤ y + q.2.lifetime
  · rw [if_pos hcond]
    exact hP
  · rw [if_neg hcond, DataFrame.nrows_setCol, DataFrame.nrows_setCol]
    exact hP

private theorem decomFold_preserves_col (l : ArDict) (h : DataFrame ℚ) (c : String)
    (hc : ∀ q ∈ l, c ≠ q.1 ++ "Decom" ∧ c ≠ "num_" ++ q.1) :
    (l.foldl decomPass h).getCol c = h.getCol c :=
  DataFrame.foldl_preserves decomPass (fun g => g.getCol c = h.getCol c) l
    (fun g q hq hP => by
      show (decomPass g q).getCol c = h.getCol c
      rw [decomPass_preserves_col g q c (hc q hq).1 (hc q hq).2]
      exact hP) h rfl

private theorem decomFold_nrows (l : ArDict) (h : DataFrame ℚ) :
    (l.foldl decomPass h).nrows = h.nrows :=
  DataFrame.foldl_preserves decomPass (fun g => g.nrows = h.nrows) l
    (fun g q _ hP => by
      show (decomPass g q).nrows = h.nrows
      rw [decomPass_nrows g q]
      exact hP) h rfl

end deployment_scripts

/-- C5: Decommission pairing for `direct_decom`.  For any reactor `p` of the
    fleet whose generated column names collide neither with `Year` nor with the
    columns of the other fleet members, on a ledger with non-negative counts:
    (1) at every step `t` inside the horizon with `lifetime ≤ t`, the recorded
    decommission count equals the (final) count at step `t - lifetime`;
    (2) at every other step the decommission count is zero, so a unit whose
    decommission year exceeds the horizon never decommissions inside it;
    (3) every count is increased by exactly its step's decommission count
    (replacement in kind);
    (4) the total decommissioned units never exceed the total units ever
    commissioned (the final count column's sum). -/
theorem C5_decommission_pairing (df : DataFrame ℚ) (ar : ArDict)
    (l₁ l₂ : List (String × ReactorSpec)) (p : String × ReactorSpec) (n : ℕ)
    (har : ar = l₁ ++ p :: l₂)
    (hL : 1 ≤ p.2.lifetime)
    (hAB : p.1 ++ "Decom" ≠ "num_" ++ p.1)
    (hYear : ∀ q ∈ ar, "Year" ≠ q.1 ++ "Decom" ∧ "Year" ≠ "num_" ++ q.1)
    (hdist : ∀ q ∈ l₁ ++ l₂,
      (p.1 ++ "Decom" ≠ q.1 ++ "Decom" ∧ p.1 ++ "Decom" ≠ "num_" ++ q.1) ∧
      ("num_" ++ p.1 ≠ q.1 ++ "Decom" ∧ "num_" ++ p.1 ≠ "num_" ++ q.1))
    (hyear : (df.getCol "Year").length = n)
    (hcnt : (df.getCol ("num_" ++ p.1)).length = n)
    (hlen : df.len = n)
    (hpos : ∀ x ∈ df.getCol ("num_" ++ p.1), 0 ≤ x) :
    (∀ t, p.2.lifetime ≤ t → t < n →
      ((deployment_scripts.direct_decom df ar).getCol (p.1 ++ "Decom")).getD t 0 =
        ((deployment_scripts.direct_decom df ar).getCol ("num_" ++ p.1)).getD
          (t - p.2.lifetime) 0) ∧
    (∀ t, ¬(p.2.lifetime ≤ t ∧ t < n) →
      ((deployment_scripts.direct_decom df ar).getCol (p.1 ++ "Decom")).getD t 0 = 0) ∧
    (∀ t, ((deployment_scripts.direct_decom df ar).getCol ("num_" ++ p.1)).getD t 0 =
      (df.getCol ("num_" ++ p.1)).getD t 0 +
        ((deployment_scripts.direct_decom df ar).getCol (p.1 ++ "Decom")).getD t 0) ∧
    ((deployment_scripts.direct_decom df ar).getCol (p.1 ++ "Decom")).sum ≤
      ((deployment_scripts.direct_decom df ar).getCol ("num_" ++ p.1)).sum := by
  subst har
  have hA : p.1 ++ "Decom" ≠ "Year" :=
    Ne.symm (hYear p (by simp)).1
  have hB : "num_" ++ p.1 ≠ "Year" :=
    Ne.symm (hYear p (by simp)).2
  have hsplit : deployment_scripts.direct_decom df (l₁ ++ p :: l₂) =
      l₂.foldl deployment_scripts.decomPass
        (deployment_scripts.decomPass
          (l₁.foldl deployment_scripts.decomPass df) p) := by
    rw [deployment_scripts.direct_decom, List.foldl_append, List.foldl_cons]
  set g := l₁.foldl deployment_scripts.decomPass df with hg
  have hgY : g.getCol "Year" = df.getCol "Year" := by
    rw [hg]
    exact deployment_scripts.decomFold_preserves_col l₁ df "Year"
      (fun q hq => hYear q (by simp [hq]))
  have hgC : g.getCol ("num_" ++ p.1) = df.getCol ("num_" ++ p.1) := by
    rw [hg]
    exact deployment_scripts.decomFold_preserves_col l₁ df ("num_" ++ p.1)
      (fun q hq => (hdist q (by simp [hq])).2)
  have hgN : g.len = n := by
    show g.nrows = n
    rw [hg, deployment_scripts.decomFold_nrows l₁ df]
    exact hlen
  have hgyear : (g.getCol "Year").length = n := by rw [hgY, hyear]
  obtain ⟨hP1, hP2, hP3⟩ := deployment_scripts.decomPass_spec g p n hAB hA hB hgyear hgN
  rw [hgC] at hP1 hP2
  have hfD : (deployment_scripts.direct_decom df (l₁ ++ p :: l₂)).getCol
      (p.1 ++ "Decom") =
      (deployment_scripts.decomCols p.2.lifetime n (df.getCol ("num_" ++ p.1))).1 := by
    rw [hsplit, deployment_scripts.decomFold_preserves_col l₂ _ (p.1 ++ "Decom")
      (fun q hq => (hdist q (by simp [hq])).1), hP1]
  have hfC : (deployment_scripts.direct_decom df (l₁ ++ p :: l₂)).getCol
      ("num_" ++ p.1) =
      (deployment_scripts.decomCols p.2.lifetime n (df.getCol ("num_" ++ p.1))).2 := by
    rw [hsplit, deployment_scripts.decomFold_preserves_col l₂ _ ("num_" ++ p.1)
      (fun q hq => (hdist q (by simp [hq])).2), hP2]
  obtain ⟨_, _, h3, h4⟩ := deployment_scripts.decomCols_spec p.2.lifetime n hL
    (df.getCol ("num_" ++ p.1)) hcnt
  refine ⟨?_, ?_, ?_, ?_⟩
  · intro t ht1 ht2
    rw [hfD, hfC, h3 t, if_pos ⟨ht1, ht2⟩]
  · intro t ht
    rw [hfD, h3 t, if_neg ht]
  · intro t
    rw [hfD, hfC, h4 t]
  · rw [hfD, hfC]
    exact deployment_scripts.decomCols_sum p.2.lifetime n hL
      (df.getCol ("num_" ++ p.1)) hcnt hpos

theorem C5_decommission_pairing_witness :
    (((deployment_scripts.direct_decom dfC5 arC5).getCol ("A" ++ "Decom")).getD 2 0 =
      ((deployment_scripts.direct_decom dfC5 arC5).getCol ("num_" ++ "A")).getD 0 0) ∧
    (((deployment_scripts.direct_decom dfC5 arC5).getCol ("A" ++ "Decom")).getD 1 0 = 0) ∧
    (((deployment_scripts.direct_decom dfC5 arC5).getCol ("num_" ++ "A")).getD 2 0 =
      (dfC5.getCol ("num_" ++ "A")).getD 2 0 +
        ((deployment_scripts.direct_decom dfC5 arC5).getCol ("A" ++ "Decom")).getD 2 0) ∧
    (((deployment_scripts.direct_decom dfC5 arC5).getCol ("A" ++ "Decom")).sum ≤
      ((deployment_scripts.direct_decom dfC5 arC5).getCol ("num_" ++ "A")).sum) := by
  obtain ⟨h1, h2, h3, h4⟩ := C5_decommission_pairing dfC5 arC5 [] []
    ("A", ⟨1, 1, 2⟩) 4 rfl (by decide) (by decide) (by decide) (by simp)
    rfl rfl rfl (by decide)
  exact ⟨h1 2 (by decide) (by decide), h2 1 (by decide), h3 2, h4⟩

private theorem greedy_deployment_eq_commission (df : DataFrame ℚ)
    (base_col : String) (ar : ArDict) :
    deployment_script.greedy_deployment df base_col ar =
      deployment_script.num_react_to_cap
        (deployment_script.direct_decom
          (deployment_script.greedy_commission df base_col ar) ar) ar := rfl

private theorem getD_updAdd_zero (l : Col ℚ) (i t : ℕ) :
    (Col.updAdd l i 0).getD t 0 = l.getD t 0 := by
  by_cases ht : t = i
  · subst ht
    by_cases hi : t < l.length
    · rw [Col.getD_updAdd_self l t 0 hi, add_zero]
    · have h1 : (Col.updAdd l t 0).length ≤ t := by
        rw [Col.length_updAdd]
        omega
      rw [List.getD_eq_default _ _ h1, List.getD_eq_default _ _ (by omega : l.length ≤ t)]
  · exact Col.getD_updAdd_ne l i t 0 ht

private theorem getD_zipWith {α β γ : Type} (f : α → β → γ) (l₁ : List α)
    (l₂ : List β) (i : ℕ) (d : γ) (d₁ : α) (d₂ : β)
    (h₁ : i < l₁.length) (h₂ : i < l₂.length) :
    (List.zipWith f l₁ l₂).getD i d = f (l₁.getD i d₁) (l₂.getD i d₂) := by
  have hz : i < (List.zipWith f l₁ l₂).length := by
    rw [List.length_zipWith]
    exact lt_min h₁ h₂
  rw [List.getD_eq_getElem _ _ hz, List.getD_eq_getElem _ _ h₁,
    List.getD_eq_getElem _ _ h₂]
  exact List.getElem_zipWith

private theorem ensure_cols_id (df : DataFrame ℚ) :
    ∀ (ar : ArDict), (∀ p ∈ ar, df.hasCol ("num_" ++ p.1) = true) →
      ar.foldl (fun g p =>
        if g.hasCol ("num_" ++ p.1) then g
        else g.setCol ("num_" ++ p.1) (List.replicate g.len 0)) df = df := by
  intro ar
  induction ar with
  | nil => intro _; rfl
  | cons p l ih =>
    intro hcols
    rw [List.foldl_cons, if_pos (hcols p (List.mem_cons_self p l))]
    exact ih (fun q hq => hcols q (List.mem_cons_of_mem p hq))

private theorem greedy_rfold_row (yr y : ℕ) (hne : yr ≠ y) (l : ArDict) :
    ∀ (acc : DataFrame ℚ × ℚ) (c : String),
      (((l.foldl (deployment_script.greedy_rstep yr) acc).1).getCol c).getD y 0 =
        (acc.1.getCol c).getD y 0 := by
  induction l with
  | nil => intro acc c; rfl
  | cons p l ih =>
    intro acc c
    rw [List.foldl_cons, ih]
    simp only [deployment_script.greedy_rstep]
    by_cases hc : c = "num_" ++ p.1
    · subst hc
      rw [DataFrame.getCol_setCol_self]
      exact Col.getD_updAdd_ne _ _ _ _ (Ne.symm hne)
    · rw [DataFrame.getCol_setCol_ne _ _ _ _ hc]

private theorem greedy_zero_fold (y : ℕ) (df0 : DataFrame ℚ) (l : ArDict) :
    ∀ (acc : DataFrame ℚ × ℚ),
      (∀ q ∈ l, 0 < q.2.power) → acc.2 = 0 →
      (∀ c t, (acc.1.getCol c).getD t 0 = (df0.getCol c).getD t 0) →
      ((l.foldl (deployment_script.greedy_rstep y) acc).2 = 0 ∧
        ∀ c t, (((l.foldl (deployment_script.greedy_rstep y) acc).1).getCol c).getD t 0 =
          (df0.getCol c).getD t 0) := by
  induction l with
  | nil => intro acc _ h2 h3; exact ⟨h2, h3⟩
  | cons p l ih =>
    intro acc hpow h2 h3
    have hp0 : (0:ℚ) < p.2.power := hpow p (List.mem_cons_self p l)
    have hstep : deployment_script.greedy_rstep y acc p =
        (acc.1.setCol ("num_" ++ p.1)
          (Col.updAdd (acc.1.getCol ("num_" ++ p.1)) y 0), 0) := by
      simp only [deployment_script.greedy_rstep]
      rw [h2, if_pos hp0]
      simp
    rw [List.foldl_cons, hstep]
    refine ih _ (fun q hq => hpow q (List.mem_cons_of_mem p hq)) rfl ?_
    intro c t
    by_cases hc : c = "num_" ++ p.1
    · subst hc
      rw [DataFrame.getCol_setCol_self, getD_updAdd_zero]
      exact h3 _ t
    · rw [DataFrame.getCol_setCol_ne _ _ _ _ hc]
      exact h3 c t

private theorem greedy_yearloop_row (base : String) (ar : ArDict) (y : ℕ)
    (df1 : DataFrame ℚ) (hpow : ∀ q ∈ ar, 0 < q.2.power)
    (hdem : (df1.getCol base).getD y 0 = 0) :
    ∀ (m : ℕ) (c : String),
      (((List.range m).foldl
        (fun g year => deployment_script.greedy_year g base ar year) df1).getCol
          c).getD y 0 = (df1.getCol c).getD y 0 := by
  intro m
  induction m with
  | zero => intro c; rfl
  | succ m ih =>
    intro c
    rw [List.range_succ, List.foldl_append, List.foldl_cons, List.foldl_nil]
    by_cases hmy : m = y
    · subst hmy
      set F := (List.range m).foldl
        (fun g year => deployment_script.greedy_year g base ar year) df1 with hF
      have hd : (F.getCol base).getD m 0 = 0 := by
        rw [hF]
        exact (ih base).trans hdem
      obtain ⟨-, h2⟩ := greedy_zero_fold m F ar
        (F, (F.getCol base).getD m 0) hpow hd (fun c t => rfl)
      show ((ar.foldl (deployment_script.greedy_rstep m)
        (F, (F.getCol base).getD m 0)).1.getCol c).getD m 0 = (df1.getCol c).getD m 0
      exact (h2 c m).trans (ih c)
    · set G := (List.range m).foldl
        (fun g year => deployment_script.greedy_year g base ar year) df1 with hG
      show ((ar.foldl (deployment_script.greedy_rstep m)
        (G, (G.getCol base).getD m 0)).1.getCol c).getD y 0 = (df1.getCol c).getD y 0
      exact (greedy_rfold_row m y hmy ar (G, (G.getCol base).getD m 0) c).trans (ih c)

private theorem calc_percentage_zero (g : DataFrame PFloat) (base : String)
    (y : ℕ) (hy1 : y < (g.getCol "difference").length)
    (hy2 : y < (g.getCol base).length)
    (hgb : (g.getCol base).getD y PFloat.nan = PFloat.num 0) :
    ∀ q : ℚ, (deployment_scripts.calc_percentage g base).getD y PFloat.nan ≠
      PFloat.num q := by
  intro q
  rw [deployment_scripts.calc_percentage,
    getD_zipWith _ _ _ y PFloat.nan PFloat.nan PFloat.nan hy1 hy2, hgb]
  rcases hdd : (g.getCol "difference").getD y PFloat.nan with a | - | - | -
  · by_cases ha : a = 0
    · subst ha
      simp [PFloat.div, PFloat.mul100]
    · by_cases ha2 : 0 < a
      · simp [PFloat.div, PFloat.mul100, ha, ha2]
      · simp [PFloat.div, PFloat.mul100, ha, ha2]
  · simp [PFloat.div, PFloat.mul100]
  · simp [PFloat.div, PFloat.mul100]
  · simp [PFloat.div, PFloat.mul100]

/-- C6 (amended): at a step whose demand value is 0, the commissioning phase
    of deployment_script.py's greedy_deployment adds zero units of every
    reactor type — every column of the ledger is unchanged at that row —
    provided every fleet power is positive and the count columns already
    exist; and calc_percentage at any row whose base value is 0 never yields
    a finite number: the division silently produces NaN (difference 0) or a
    signed infinity, as an ordinary float value rather than an explicit
    undefined/sentinel result.  The original claim's second half is false:
    see the counterexample, where the value is exactly the float NaN. -/
theorem C6_zero_demand (df : DataFrame ℚ) (base_col : String) (ar : ArDict)
    (y : ℕ) (hpow : ∀ q ∈ ar, 0 < q.2.power)
    (hcols : ∀ p ∈ ar, df.hasCol ("num_" ++ p.1) = true)
    (hdem : (df.getCol base_col).getD y 0 = 0)
    (g : DataFrame PFloat)
    (hy1 : y < (g.getCol "difference").length)
    (hy2 : y < (g.getCol base_col).length)
    (hgb : (g.getCol base_col).getD y PFloat.nan = PFloat.num 0) :
    (∀ c, ((deployment_script.greedy_commission df base_col ar).getCol c).getD y 0 =
      (df.getCol c).getD y 0) ∧
    (∀ q : ℚ, (deployment_scripts.calc_percentage g base_col).getD y PFloat.nan ≠
      PFloat.num q) := by
  constructor
  · intro c
    have he : (ar.foldl (fun g p =>
        if g.hasCol ("num_" ++ p.1) then g
        else g.setCol ("num_" ++ p.1) (List.replicate g.len 0)) df) = df :=
      ensure_cols_id df ar hcols
    show (((List.range ((ar.foldl (fun g p =>
        if g.hasCol ("num_" ++ p.1) then g
        else g.setCol ("num_" ++ p.1) (List.replicate g.len 0)) df).getCol
          base_col).length).foldl
        (fun g year => deployment_script.greedy_year g base_col ar year)
        (ar.foldl (fun g p =>
          if g.hasCol ("num_" ++ p.1) then g
          else g.setCol ("num_" ++ p.1) (List.replicate g.len 0)) df)).getCol
            c).getD y 0 = (df.getCol c).getD y 0
    rw [he]
    exact greedy_yearloop_row base_col ar y df hpow hdem _ c
  · exact calc_percentage_zero g base_col y hy1 hy2 hgb

theorem C6_counterexample :
    deployment_scripts.calc_percentage gC6 "test_cap" = [PFloat.nan] := by
  decide

theorem C6_zero_demand_witness :
    ((deployment_script.greedy_commission dfC6w "test_cap" arC5).getCol
      "num_A").getD 0 0 = (dfC6w.getCol "num_A").getD 0 0 ∧
    (deployment_scripts.calc_percentage gC6 "test_cap").getD 0 PFloat.nan ≠
      PFloat.num 0 := by
  obtain ⟨h1, h2⟩ := C6_zero_demand dfC6w "test_cap" arC5 0 (by decide)
    (by decide) (by decide) gC6 (by decide) (by decide) (by decide)
  exact ⟨h1 "num_A", h2 0⟩

/-- C7 (amended): `analyze_algorithm` is not read-only on the ledger — it
    writes the `difference` and `percentage` columns into the table it was
    handed — but touches nothing else: every column named neither
    `difference` nor `percentage` is returned exactly as it was, and after
    the call the ledger always has `difference` and `percentage` columns.
    The original read-only claim is refuted by the counterexample, where
    the column set strictly grows. -/
theorem C7_ledger_mutation (df : DataFrame PFloat) (base proj : String)
    (ar : ArDict) :
    (∀ c, c ≠ "difference" → c ≠ "percentage" →
      (deployment_scripts.analyze_algorithm df base proj ar).1.getCol c =
        df.getCol c) ∧
    (deployment_scripts.analyze_algorithm df base proj ar).1.hasCol
      "difference" = true ∧
    (deployment_scripts.analyze_algorithm df base proj ar).1.hasCol
      "percentage" = true := by
  have h1 : (deployment_scripts.analyze_algorithm df base proj ar).1 =
      (df.setCol "difference" (deployment_scripts.simple_diff df base proj)).setCol
        "percentage" (deployment_scripts.calc_percentage
          (df.setCol "difference" (deployment_scripts.simple_diff df base proj))
          base) := rfl
  rw [h1]
  refine ⟨?_, ?_, DataFrame.hasCol_setCol_self _ _ _⟩
  · intro c hc1 hc2
    rw [DataFrame.getCol_setCol_ne _ _ _ _ hc2, DataFrame.getCol_setCol_ne _ _ _ _ hc1]
  · rw [DataFrame.hasCol_setCol_ne _ _ _ _
      (by decide : ("difference" : String) ≠ "percentage"),
      DataFrame.hasCol_setCol_self]

theorem C7_counterexample :
    (deployment_scripts.analyze_algorithm dfC7 "demand" "proj" []).1.hasCol
      "difference" = true ∧
    dfC7.hasCol "difference" = false ∧
    (deployment_scripts.analyze_algorithm dfC7 "demand" "proj" []).1 ≠ dfC7 := by
  refine ⟨by decide, by decide, fun h => ?_⟩
  have h1 : (deployment_scripts.analyze_algorithm dfC7 "demand" "proj"
      []).1.hasCol "difference" = true := by decide
  rw [h] at h1
  have h2 : dfC7.hasCol "difference" = false := by decide
  rw [h1] at h2
  exact Bool.noConfusion h2

theorem C7_ledger_mutation_witness :
    (deployment_scripts.analyze_algorithm dfC7 "demand" "proj" []).1.getCol
      "demand" = dfC7.getCol "demand" ∧
    (deployment_scripts.analyze_algorithm dfC7 "demand" "proj" []).1.hasCol
      "difference" = true := by
  obtain ⟨h1, h2, -⟩ := C7_ledger_mutation dfC7 "demand" "proj" []
  exact ⟨h1 "demand" (by decide) (by decide), h2⟩
